import Mathlib

/-!
# ESP8266 AT-command driver (Core/Src/ESP8266.c, Core/Inc/ESP8266.h)

A shallow embedding of the driver's protocol engine.

* A byte is a natural number (a `char` of the target is unsigned and below 256).
* A C string is a list of bytes; reading one stops at the first zero byte, or at the
  end of the list when the list holds no zero byte.
* The file-scope variables of `ESP8266.c` are the fields of `Session`; the bytes handed
  to `HAL_UART_Transmit` are logged in the field `uart_tx`.
* `unsigned long` is the 32-bit type of the STM32 target: arithmetic in `hash` is
  reduced modulo `2 ^ 32`.
* The receive interrupt is modelled by a schedule: the list of byte chunks that arrive
  between two successive evaluations of a wait loop.
-/

namespace ESP8266

/-! ## Strings and constants of `ESP8266.h` -/

/-- Bytes of an ASCII string literal, without the terminating zero byte. -/
def cs (s : String) : List Nat := s.toList.map Char.toNat

def RX_BUFFER_SIZE : Nat := 4096

def ESP8266_NOT_IMPLEMENTED : List Nat := cs "NOT IMPLEMENTED"
def ESP8266_AT_OK_TERMINATOR : List Nat := cs "OK\r\n"
def ESP8266_AT_OK : List Nat := cs "OK"
def ESP8266_AT_ERROR : List Nat := cs "ERROR"
def ESP8266_AT_FAIL : List Nat := cs "FAIL"
def ESP8266_AT_WIFI_CONNECTED : List Nat := cs "WIFI CONNECTED"
def ESP8266_AT_WIFI_DISCONNECTED : List Nat := cs "WIFI DISCONNECTED"
def ESP8266_AT_CONNECT : List Nat := cs "CONNECT"
def ESP8266_AT_CLOSED : List Nat := cs "CLOSED"
def ESP8266_AT_SEND_OK : List Nat := cs "SEND OK"
def ESP8266_AT_NO_AP : List Nat := cs "No AP\r\n"
def ESP8266_AT_UNKNOWN : List Nat := cs "UNKNOWN"
def ESP8266_AT_CWMODE_1 : List Nat := cs "CWMODE_CUR:1"
def ESP8266_AT_CWMODE_2 : List Nat := cs "CWMODE_CUR:2"
def ESP8266_AT_CWMODE_3 : List Nat := cs "CWMODE_CUR:3"
def ESP8266_AT_CWJAP_1 : List Nat := cs "CWJAP:1"
def ESP8266_AT_CWJAP_2 : List Nat := cs "CWJAP:2"
def ESP8266_AT_CWJAP_3 : List Nat := cs "CWJAP:3"
def ESP8266_AT_CWJAP_4 : List Nat := cs "CWJAP:4"
def ESP8266_AT_TIMEOUT : List Nat := cs "connection timeout"
def ESP8266_AT_WRONG_PWD : List Nat := cs "wrong password"
def ESP8266_AT_NO_TARGET : List Nat := cs "cannot find AP"
def ESP8266_AT_CONNECTION_FAIL : List Nat := cs "connection failed"
def ESP8266_AT_CIPMUX_0 : List Nat := cs "CIPMUX:0"
def ESP8266_AT_CIPMUX_1 : List Nat := cs "CIPMUX:1"

/-! The djb2 keys of the enumeration `KEYS`. -/

def ESP8266_AT_KEY : Nat := 2088901425
def ESP8266_AT_RST_KEY : Nat := 617536853
def ESP8266_AT_GMR_KEY : Nat := 604273922
def ESP8266_AT_CWMODE_STATION_MODE_KEY : Nat := 608151977
def ESP8266_AT_CWMODE_TEST_KEY : Nat := 4116713283
def ESP8266_AT_CWQAP_KEY : Nat := 445513592
def ESP8266_AT_CWJAP_TEST_KEY : Nat := 1543153456
def ESP8266_AT_CWJAP_SET_KEY : Nat := 2616259383
def ESP8266_AT_CIPMUX_KEY : Nat := 423755967
def ESP8266_AT_CIPMUX_TEST_KEY : Nat := 3657056785
def ESP8266_AT_START_KEY : Nat := 3889879756
def ESP8266_AT_SEND_KEY : Nat := 898252904

/-! The AT command texts. -/

def ESP8266_AT : List Nat := cs "AT\r\n"
def ESP8266_AT_RST : List Nat := cs "AT+RST\r\n"
def ESP8266_AT_GMR : List Nat := cs "AT+GMR\r\n"
def ESP8266_AT_CWMODE_TEST : List Nat := cs "AT+CWMODE_CUR?\r\n"
def ESP8266_AT_CWMODE_STATION_MODE : List Nat := cs "AT+CWMODE=1\r\n"
def ESP8266_AT_CWJAP_TEST : List Nat := cs "AT+CWJAP?\r\n"
def ESP8266_AT_CWJAP_SET : List Nat := cs "AT+CWJAP="
def ESP8266_AT_CWQAP : List Nat := cs "AT+CWQAP\r\n"
def ESP8266_AT_CIPMUX_SINGLE : List Nat := cs "AT+CIPMUX=0\r\n"
def ESP8266_AT_CIPMUX_TEST : List Nat := cs "AT+CIPMUX?\r\n"
def ESP8266_AT_START : List Nat := cs "AT+CIPSTART="
def ESP8266_AT_SEND : List Nat := cs "AT+CIPSEND="

/-! ## C library functions used by the driver -/

/-- The content of the C string stored at the head of `p`: the bytes before the first
zero byte. -/
def cstr (p : List Nat) : List Nat := p.takeWhile (fun c => c != 0)

/-- Offset of the first occurrence of the byte sequence `needle` in `hay`. -/
def findFirst (needle : List Nat) : List Nat → Option Nat
  | [] => if needle.isPrefixOf [] then some 0 else none
  | c :: t => if needle.isPrefixOf (c :: t) then some 0 else (findFirst needle t).map Nat.succ

/-- C `strstr`: the offset of the first occurrence of the string `needle` in the string
`haystack`, or `none` for the null pointer. -/
def strstr (haystack needle : List Nat) : Option Nat := findFirst (cstr needle) (cstr haystack)

/-- C `strlen`. -/
def strlen (p : List Nat) : Nat := (cstr p).length

/-! ## The session state and the functions of `ESP8266.c` -/

/-- The file-scope variables of `ESP8266.c`, and the log of the bytes given to the UART. -/
structure Session where
  rx_variable : Nat
  rx_buffer_index : Nat
  error_flag : Bool
  fail_flag : Bool
  rx_buffer : List Nat
  uart_tx : List Nat
deriving DecidableEq, Repr

/-- The variables as the C start-up code leaves them: static storage is zeroed. -/
def startup : Session :=
  { rx_variable := 0, rx_buffer_index := 0, error_flag := false, fail_flag := false,
    rx_buffer := List.replicate RX_BUFFER_SIZE 0, uart_tx := [] }

/-- `HAL_UART_Transmit(&huart4, data, size, 100)`: the first `size` bytes go to the UART. -/
def HAL_UART_Transmit (data : List Nat) (size : Nat) (s : Session) : Session :=
  { s with uart_tx := s.uart_tx ++ data.take size }

/-- The receive-complete callback. `fromUART4` is `huart->Instance == UART4`;
`rx_buffer_index` is a `uint8_t`, so the increment wraps at 256. -/
def HAL_UART_RxCpltCallback (fromUART4 : Bool) (s : Session) : Session :=
  if fromUART4 then
    { s with rx_buffer := s.rx_buffer.set s.rx_buffer_index s.rx_variable,
             rx_buffer_index := (s.rx_buffer_index + 1) % 256 }
  else s

/-- One byte arrives on UART4: the HAL stores it in `rx_variable` and calls the callback. -/
def uart4_byte (s : Session) (b : Nat) : Session :=
  HAL_UART_RxCpltCallback true { s with rx_variable := b }

/-- A chunk of bytes arrives on UART4, one interrupt per byte. -/
def uart4_receive (chunk : List Nat) (s : Session) : Session := chunk.foldl uart4_byte s

/-- The djb2 loop of `hash`: `while ((c = *str++)) hash = ((hash << 5) + hash) + c;` -/
def hashLoop (h : Nat) : List Nat → Nat
  | [] => h
  | c :: str => if c = 0 then h else hashLoop (((h <<< 5) + h + c) % 2 ^ 32) str

def hash (str : List Nat) : Nat := hashLoop 5381 str

def esp8266_clear (s : Session) : Session :=
  { s with rx_buffer_index := 0, error_flag := false, fail_flag := false,
           rx_buffer := List.replicate RX_BUFFER_SIZE 0 }

def evaluate (s : Session) : List Nat :=
  if s.error_flag || s.fail_flag then ESP8266_AT_ERROR else ESP8266_AT_OK

/-- The command text the switch of `get_return` hashes: the three `strstr` tests at the
head of the function. -/
def canonical (command : List Nat) : List Nat :=
  if (strstr command ESP8266_AT_CWJAP_SET).isSome then ESP8266_AT_CWJAP_SET
  else if (strstr command ESP8266_AT_START).isSome then ESP8266_AT_START
  else if (strstr command ESP8266_AT_SEND).isSome then ESP8266_AT_SEND
  else command

def get_return (s : Session) (command : List Nat) : List Nat :=
  let return_type := hash (canonical command)
  if return_type = ESP8266_AT_KEY ∨ return_type = ESP8266_AT_GMR_KEY
      ∨ return_type = ESP8266_AT_RST_KEY ∨ return_type = ESP8266_AT_CWMODE_STATION_MODE_KEY
      ∨ return_type = ESP8266_AT_CIPMUX_KEY ∨ return_type = ESP8266_AT_CWQAP_KEY then
    evaluate s
  else if return_type = ESP8266_AT_CWMODE_TEST_KEY then
    if s.error_flag || s.fail_flag then ESP8266_AT_ERROR
    else if (strstr s.rx_buffer ESP8266_AT_CWMODE_1).isSome then ESP8266_AT_CWMODE_1
    else if (strstr s.rx_buffer ESP8266_AT_CWMODE_2).isSome then ESP8266_AT_CWMODE_2
    else if (strstr s.rx_buffer ESP8266_AT_CWMODE_3).isSome then ESP8266_AT_CWMODE_3
    else ESP8266_AT_UNKNOWN
  else if return_type = ESP8266_AT_CWJAP_TEST_KEY then
    if s.error_flag || s.fail_flag then ESP8266_AT_ERROR
    else if (strstr s.rx_buffer ESP8266_AT_NO_AP).isSome then ESP8266_AT_WIFI_DISCONNECTED
    else ESP8266_AT_WIFI_CONNECTED
  else if return_type = ESP8266_AT_CWJAP_SET_KEY then
    if s.fail_flag || s.error_flag then
      if (strstr s.rx_buffer ESP8266_AT_CWJAP_1).isSome then ESP8266_AT_TIMEOUT
      else if (strstr s.rx_buffer ESP8266_AT_CWJAP_2).isSome then ESP8266_AT_WRONG_PWD
      else if (strstr s.rx_buffer ESP8266_AT_CWJAP_3).isSome then ESP8266_AT_NO_TARGET
      else if (strstr s.rx_buffer ESP8266_AT_CWJAP_4).isSome then ESP8266_AT_CONNECTION_FAIL
      else ESP8266_AT_ERROR
    else ESP8266_AT_WIFI_CONNECTED
  else if return_type = ESP8266_AT_CIPMUX_TEST_KEY then
    if s.error_flag || s.fail_flag then ESP8266_AT_ERROR
    else if (strstr s.rx_buffer ESP8266_AT_CIPMUX_0).isSome then ESP8266_AT_CIPMUX_0
    else ESP8266_AT_CIPMUX_1
  else if return_type = ESP8266_AT_START_KEY then
    if s.error_flag || s.fail_flag then ESP8266_AT_ERROR else ESP8266_AT_CONNECT
  else if return_type = ESP8266_AT_SEND_KEY then
    if s.error_flag || s.fail_flag then ESP8266_AT_ERROR else ESP8266_AT_SEND_OK
  else ESP8266_NOT_IMPLEMENTED

/-- One evaluation of the wait loop of `esp8266_send_command` on the present buffer:
`some` is the state in which the loop is left, `none` means the loop goes round again. -/
def wait_iteration (s : Session) : Option Session :=
  if (strstr s.rx_buffer ESP8266_AT_OK_TERMINATOR).isSome then some s
  else if (strstr s.rx_buffer ESP8266_AT_ERROR).isSome then some { s with error_flag := true }
  else if (strstr s.rx_buffer ESP8266_AT_FAIL).isSome then some { s with fail_flag := true }
  else if (strstr s.rx_buffer (cs "rst")).isSome then some { s with fail_flag := true }
  else none

/-- The wait loop of `esp8266_send_command` under a schedule: before each evaluation of
the loop the next chunk of the schedule arrives. `none`: the loop has not been left when
the schedule ends, and it spins for ever on a buffer that no longer changes. -/
def wait_loop : List (List Nat) → Session → Option Session
  | [], _ => none
  | chunk :: rest, s =>
    match wait_iteration (uart4_receive chunk s) with
    | some s1 => some s1
    | none => wait_loop rest (uart4_receive chunk s)

/-- `esp8266_send_command(command)` when the module answers along `schedule`: the final
state and the returned string, or `none` when the wait loop is never left. -/
def esp8266_send_command (command : List Nat) (schedule : List (List Nat)) (s : Session) :
    Option (Session × List Nat) :=
  let s1 := esp8266_clear s
  let s2 := HAL_UART_Transmit command (strlen command) s1
  match wait_loop schedule s2 with
  | some s3 => some (s3, get_return s3 command)
  | none => none

/-- `sprintf(ref, "%s\"%s\",\"%s\"\r\n", ESP8266_AT_CWJAP_SET, SSID, PWD)`; `SSID` and
`PWD` come from `login.h`, which the repository leaves to its user. -/
def esp8266_get_wifi_command (SSID PWD : List Nat) : List Nat :=
  cstr ESP8266_AT_CWJAP_SET ++ cs "\"" ++ cstr SSID ++ cs "\",\"" ++ cstr PWD ++ cs "\"\r\n"

def esp8266_wifi_init (SSID PWD : List Nat) (schedule : List (List Nat)) (s : Session) :
    Option (Session × List Nat) :=
  esp8266_send_command (esp8266_get_wifi_command SSID PWD) schedule s

/-! HTTP request strings of `ESP8266.h`. -/

def HTTP_GET : List Nat := cs "GET "
def HTTP_POST : List Nat := cs "POST "
def HTTP_VERSION : List Nat := cs "HTTP/1.1"
def HTTP_HOST : List Nat := cs "Host: "
def HTTP_CONNECTION_CLOSE : List Nat := cs "Connection: close"

/-- The `%d` conversion of `sprintf` for a value that is not negative. -/
def decimal (n : Nat) : List Nat := (Nat.toDigits 10 n).map Char.toNat

/-- The wait loop of `esp8266_send_data`, `while((strstr(rx_buffer, ESP8266_AT_CLOSED) ==
NULL));`, under a schedule: before each evaluation the next chunk arrives; `none` when the
loop has not been left at the end of the schedule. -/
def closed_loop : List (List Nat) → Session → Option Session
  | [], _ => none
  | chunk :: rest, s =>
    if (strstr (uart4_receive chunk s).rx_buffer ESP8266_AT_CLOSED).isSome then
      some (uart4_receive chunk s)
    else closed_loop rest (uart4_receive chunk s)

/-- `esp8266_send_data(data)` when the module answers along `schedule`. -/
def esp8266_send_data (data : List Nat) (schedule : List (List Nat)) (s : Session) :
    Option (Session × List Nat) :=
  if s.error_flag || s.fail_flag then some (s, ESP8266_AT_ERROR)
  else
    let s1 := { s with rx_buffer_index := 0 }
    let s2 := { s1 with rx_buffer := List.replicate RX_BUFFER_SIZE 0 }
    let s3 := HAL_UART_Transmit data (strlen data) s2
    match closed_loop schedule s3 with
    | some s4 => some (s4, ESP8266_AT_CLOSED)
    | none => none

/-- `sprintf(ref, "%s\"%s\",\"%s\",%s\r\n", ESP8266_AT_START, connection_type, remote_ip,
remote_port)`. -/
def esp8266_get_connection_command (connection_type remote_ip remote_port : List Nat) :
    List Nat :=
  cstr ESP8266_AT_START ++ cs "\"" ++ cstr connection_type ++ cs "\",\"" ++ cstr remote_ip
    ++ cs "\"," ++ cstr remote_port ++ cs "\r\n"

/-- `sprintf(ref, "%s%d\r\n", ESP8266_AT_SEND, len)`; `len` is a `uint8_t` parameter, so
the argument is reduced modulo 256. -/
def esp8266_get_at_send_command (len : Nat) : List Nat :=
  cstr ESP8266_AT_SEND ++ decimal (len % 256) ++ cs "\r\n"

/-- `esp8266_http_get_request`: the text written to `ref`, and the returned value
`strlen(ref)` converted to the return type `uint8_t`. -/
def esp8266_http_get_request (http_type uri host : List Nat) : List Nat × Nat :=
  let ref := cstr http_type ++ cstr uri ++ cs " " ++ cstr HTTP_VERSION ++ cs "\r\n"
    ++ cstr HTTP_HOST ++ cstr host ++ cs "\r\n" ++ cstr HTTP_CONNECTION_CLOSE ++ cs "\r\n\r\n"
  (ref, strlen ref % 256)

/-- A step of the driver: a receive interrupt, or a call of one of its functions. -/
inductive Step where
  | rx (fromUART4 : Bool) (byte : Nat)
  | clear
  | send_command (command : List Nat) (schedule : List (List Nat))
  | send_data (data : List Nat) (schedule : List (List Nat))

/-- The state after a step; `none` when the called function never returns. -/
def Step.apply : Step → Session → Option Session
  | .rx fromUART4 byte, s => some (HAL_UART_RxCpltCallback fromUART4 { s with rx_variable := byte })
  | .clear, s => some (esp8266_clear s)
  | .send_command command schedule, s => (esp8266_send_command command schedule s).map Prod.fst
  | .send_data data schedule, s => (esp8266_send_data data schedule s).map Prod.fst

/-- The state after a sequence of steps. -/
def run : List Step → Session → Option Session
  | [], s => some s
  | step :: rest, s => (step.apply s).bind (run rest)

/-! ## Predicates used to state the properties -/

/-- The receive buffer holds exactly the bytes `p` received since it was cleared: `p` at
its head, zero bytes behind it, and the write index after `p` (as a `uint8_t`). -/
def Holds (s : Session) (p : List Nat) : Prop :=
  s.rx_buffer = p ++ List.replicate (RX_BUFFER_SIZE - p.length) 0
  ∧ s.rx_buffer_index = p.length % 256

/-- The two flags and the transmit log of `s1` are those of `s`. -/
def SameFlags (s s1 : Session) : Prop :=
  s.error_flag = s1.error_flag ∧ s.fail_flag = s1.fail_flag ∧ s.uart_tx = s1.uart_tx

/-- The wait loop of `esp8266_send_command` is left on the buffer content `t`: one of its
four markers occurs in `t`. -/
def Exits (t : List Nat) : Prop :=
  cs "OK\r\n" <:+: t ∨ cs "ERROR" <:+: t ∨ cs "FAIL" <:+: t ∨ cs "rst" <:+: t

instance (t : List Nat) : Decidable (Exits t) := by unfold Exits; infer_instance

/-- The buffer content on which the wait loop is left, when the buffer holds `p` and the
module then answers along the schedule. -/
def firstExit : List Nat → List (List Nat) → Option (List Nat)
  | _, [] => none
  | p, c :: rest => if Exits (p ++ c) then some (p ++ c) else firstExit (p ++ c) rest

/-- The six commands whose answer is only `OK` or `ERROR`. -/
def plainCommands : List (List Nat) :=
  [ESP8266_AT, ESP8266_AT_GMR, ESP8266_AT_RST, ESP8266_AT_CWMODE_STATION_MODE,
   ESP8266_AT_CIPMUX_SINGLE, ESP8266_AT_CWQAP]

/-- The canonical command texts of the twelve recognised commands. -/
def knownCommands : List (List Nat) :=
  [ESP8266_AT, ESP8266_AT_RST, ESP8266_AT_GMR, ESP8266_AT_CWMODE_STATION_MODE,
   ESP8266_AT_CWMODE_TEST, ESP8266_AT_CWQAP, ESP8266_AT_CWJAP_TEST, ESP8266_AT_CWJAP_SET,
   ESP8266_AT_CIPMUX_SINGLE, ESP8266_AT_CIPMUX_TEST, ESP8266_AT_START, ESP8266_AT_SEND]

/-- The nine commands with a fixed text. -/
def fixedCommands : List (List Nat) :=
  [ESP8266_AT, ESP8266_AT_RST, ESP8266_AT_GMR, ESP8266_AT_CWMODE_STATION_MODE,
   ESP8266_AT_CWMODE_TEST, ESP8266_AT_CWQAP, ESP8266_AT_CWJAP_TEST,
   ESP8266_AT_CIPMUX_SINGLE, ESP8266_AT_CIPMUX_TEST]

/-- The twelve constants of the enumeration `KEYS`. -/
def allKeys : List Nat :=
  [ESP8266_AT_KEY, ESP8266_AT_RST_KEY, ESP8266_AT_GMR_KEY, ESP8266_AT_CWMODE_STATION_MODE_KEY,
   ESP8266_AT_CWMODE_TEST_KEY, ESP8266_AT_CWQAP_KEY, ESP8266_AT_CWJAP_TEST_KEY,
   ESP8266_AT_CWJAP_SET_KEY, ESP8266_AT_CIPMUX_KEY, ESP8266_AT_CIPMUX_TEST_KEY,
   ESP8266_AT_START_KEY, ESP8266_AT_SEND_KEY]

/-- The number of bytes of the stream `r` after which the marker `m` has arrived in full
for the first time. -/
def completes (m r : List Nat) : Option Nat := (findFirst m r).map (fun i => i + m.length)

/-- The schedule on which the wait loop sees the buffer after every single byte. -/
def everyByte (r : List Nat) : List (List Nat) := r.map (fun b => [b])

/-- The marker `m` is complete in the stream `r` strictly before each of the markers
`others` is (if they ever are). -/
def FirstToComplete (m : List Nat) (others : List (List Nat)) (r : List Nat) : Prop :=
  ∃ e, completes m r = some e ∧ ∀ x ∈ others, ∀ e1, completes x r = some e1 → e < e1

/-- Two session states agree on what the driver reads: the write index, both flags and the
buffer (they may differ in the last received byte and in the transmit log). -/
def Agree (s s' : Session) : Prop :=
  s.rx_buffer_index = s'.rx_buffer_index ∧ s.error_flag = s'.error_flag
  ∧ s.fail_flag = s'.fail_flag ∧ s.rx_buffer = s'.rx_buffer

/-- A sequence of `n` non-zero bytes: 1, 2, .., 255, 1, 2, .. -/
def countingBytes (n : Nat) : List Nat := (List.range n).map (fun i => i % 255 + 1)

/-- The write index is a `uint8_t` value and the buffer has its 4096 bytes. -/
def IndexInv (s : Session) : Prop :=
  s.rx_buffer_index < 256 ∧ s.rx_buffer.length = RX_BUFFER_SIZE

/-- The state at the first evaluation of the wait loop of `esp8266_send_command`: after the
clear, the transmission of the command and the arrival of the first chunk. -/
def firstObservation (command chunk : List Nat) (s0 : Session) : Session :=
  uart4_receive chunk (HAL_UART_Transmit command (strlen command) (esp8266_clear s0))

/-! ## The djb2 keys -/

/-- C6: in 32-bit djb2 each of the twelve canonical command texts hashes to its own
`KEYS` constant, and `hash` is injective on these twelve texts. -/
theorem hash_known_commands :
    hash ESP8266_AT = 2088901425 ∧ ESP8266_AT_KEY = 2088901425
    ∧ hash ESP8266_AT_RST = 617536853 ∧ ESP8266_AT_RST_KEY = 617536853
    ∧ hash ESP8266_AT_GMR = 604273922 ∧ ESP8266_AT_GMR_KEY = 604273922
    ∧ hash ESP8266_AT_CWMODE_STATION_MODE = 608151977
    ∧ ESP8266_AT_CWMODE_STATION_MODE_KEY = 608151977
    ∧ hash ESP8266_AT_CWMODE_TEST = 4116713283 ∧ ESP8266_AT_CWMODE_TEST_KEY = 4116713283
    ∧ hash ESP8266_AT_CWQAP = 445513592 ∧ ESP8266_AT_CWQAP_KEY = 445513592
    ∧ hash ESP8266_AT_CWJAP_TEST = 1543153456 ∧ ESP8266_AT_CWJAP_TEST_KEY = 1543153456
    ∧ hash ESP8266_AT_CWJAP_SET = 2616259383 ∧ ESP8266_AT_CWJAP_SET_KEY = 2616259383
    ∧ hash ESP8266_AT_CIPMUX_SINGLE = 423755967 ∧ ESP8266_AT_CIPMUX_KEY = 423755967
    ∧ hash ESP8266_AT_CIPMUX_TEST = 3657056785 ∧ ESP8266_AT_CIPMUX_TEST_KEY = 3657056785
    ∧ hash ESP8266_AT_START = 3889879756 ∧ ESP8266_AT_START_KEY = 3889879756
    ∧ hash ESP8266_AT_SEND = 898252904 ∧ ESP8266_AT_SEND_KEY = 898252904
    ∧ (∀ a ∈ knownCommands, ∀ b ∈ knownCommands, hash a = hash b → a = b) := by
  decide

/-! ## `strstr` finds exactly the contiguous substrings -/

theorem findFirst_isSome_iff (needle hay : List Nat) :
    (findFirst needle hay).isSome = true ↔ needle <:+: hay := by
  induction hay with
  | nil =>
    cases needle <;> simp [findFirst, List.isPrefixOf]
  | cons c t ih =>
    have hcons : findFirst needle (c :: t) =
        if needle.isPrefixOf (c :: t) then some 0 else (findFirst needle t).map Nat.succ := rfl
    rw [List.infix_cons_iff, ← ih, ← List.isPrefixOf_iff_prefix, hcons]
    by_cases hp : needle.isPrefixOf (c :: t) = true
    · simp [hp]
    · simp [hp]

theorem strstr_isSome_iff (haystack needle : List Nat) :
    (strstr haystack needle).isSome = true ↔ cstr needle <:+: cstr haystack :=
  findFirst_isSome_iff _ _

theorem cstr_cs_markers :
    cstr ESP8266_AT_CWMODE_1 = cs "CWMODE_CUR:1" ∧ cstr ESP8266_AT_CWMODE_2 = cs "CWMODE_CUR:2"
    ∧ cstr ESP8266_AT_CWMODE_3 = cs "CWMODE_CUR:3" ∧ cstr ESP8266_AT_NO_AP = cs "No AP\r\n"
    ∧ cstr ESP8266_AT_CWJAP_1 = cs "CWJAP:1" ∧ cstr ESP8266_AT_CWJAP_2 = cs "CWJAP:2"
    ∧ cstr ESP8266_AT_CWJAP_3 = cs "CWJAP:3" ∧ cstr ESP8266_AT_CWJAP_4 = cs "CWJAP:4"
    ∧ cstr ESP8266_AT_CIPMUX_0 = cs "CIPMUX:0" ∧ cstr ESP8266_AT_CIPMUX_1 = cs "CIPMUX:1" := by
  decide

/-! ## The receiver fills a cleared buffer -/

theorem cstr_append_zeros (p : List Nat) (n : Nat) (hz : ∀ b ∈ p, b ≠ 0) :
    cstr (p ++ List.replicate n 0) = p := by
  unfold cstr
  rw [List.takeWhile_append_of_pos (by simpa using hz)]
  cases n with
  | zero => simp
  | succ k => simp [List.replicate_succ]

theorem holds_cstr (s : Session) (p : List Nat) (h : Holds s p) (hz : ∀ b ∈ p, b ≠ 0) :
    cstr s.rx_buffer = p := by
  rw [h.1, cstr_append_zeros p _ hz]

theorem uart4_byte_holds (s : Session) (p : List Nat) (b : Nat) (h : Holds s p)
    (hl : p.length < 256) : Holds (uart4_byte s b) (p ++ [b]) ∧ SameFlags s (uart4_byte s b) := by
  obtain ⟨hb, hi⟩ := h
  have hi' : s.rx_buffer_index = p.length := by rw [hi, Nat.mod_eq_of_lt hl]
  refine ⟨⟨?_, ?_⟩, rfl, rfl, rfl⟩
  · show s.rx_buffer.set s.rx_buffer_index b = _
    rw [hb, hi', List.set_append_right _ _ (le_refl _)]
    have hr : RX_BUFFER_SIZE - p.length = (RX_BUFFER_SIZE - (p ++ [b]).length) + 1 := by
      simp [RX_BUFFER_SIZE]; omega
    rw [hr, List.replicate_succ]
    simp
  · show (s.rx_buffer_index + 1) % 256 = _
    rw [hi']; simp

theorem uart4_receive_holds (chunk : List Nat) : ∀ (s : Session) (p : List Nat), Holds s p →
    p.length + chunk.length ≤ 256 →
    Holds (uart4_receive chunk s) (p ++ chunk) ∧ SameFlags s (uart4_receive chunk s) := by
  induction chunk with
  | nil =>
    intro s p h _
    simpa [uart4_receive] using ⟨h, rfl, rfl, rfl⟩
  | cons b rest ih =>
    intro s p h hl
    simp only [List.length_cons] at hl
    obtain ⟨h1, f1⟩ := uart4_byte_holds s p b h (by omega)
    obtain ⟨h2, f2⟩ := ih (uart4_byte s b) (p ++ [b]) h1 (by simp; omega)
    refine ⟨?_, ?_⟩
    · simpa [uart4_receive] using h2
    · exact ⟨f1.1.trans f2.1, f1.2.1.trans f2.2.1, f1.2.2.trans f2.2.2⟩

theorem holds_after_clear (command : List Nat) (n : Nat) (s : Session) :
    Holds (HAL_UART_Transmit command n (esp8266_clear s)) [] :=
  ⟨rfl, rfl⟩

/-! ## The wait loop of `esp8266_send_command` -/

theorem wait_iteration_eq (s : Session) :
    wait_iteration s =
      if cs "OK\r\n" <:+: cstr s.rx_buffer then some s
      else if cs "ERROR" <:+: cstr s.rx_buffer then some { s with error_flag := true }
      else if cs "FAIL" <:+: cstr s.rx_buffer then some { s with fail_flag := true }
      else if cs "rst" <:+: cstr s.rx_buffer then some { s with fail_flag := true }
      else none := by
  have m1 : cstr ESP8266_AT_OK_TERMINATOR = cs "OK\r\n" := by decide
  have m2 : cstr ESP8266_AT_ERROR = cs "ERROR" := by decide
  have m3 : cstr ESP8266_AT_FAIL = cs "FAIL" := by decide
  have m4 : cstr (cs "rst") = cs "rst" := by decide
  unfold wait_iteration
  simp only [strstr_isSome_iff, m1, m2, m3, m4]

theorem wait_iteration_none (s : Session) (h : ¬ Exits (cstr s.rx_buffer)) :
    wait_iteration s = none := by
  rw [wait_iteration_eq]
  simp only [Exits, not_or] at h
  simp [h.1, h.2.1, h.2.2.1, h.2.2.2]

theorem wait_iteration_isSome (s : Session) (h : Exits (cstr s.rx_buffer)) :
    ∃ s1, wait_iteration s = some s1 := by
  rw [wait_iteration_eq]
  by_cases h1 : cs "OK\r\n" <:+: cstr s.rx_buffer
  · exact ⟨_, if_pos h1⟩
  by_cases h2 : cs "ERROR" <:+: cstr s.rx_buffer
  · exact ⟨_, by rw [if_neg h1, if_pos h2]⟩
  by_cases h3 : cs "FAIL" <:+: cstr s.rx_buffer
  · exact ⟨_, by rw [if_neg h1, if_neg h2, if_pos h3]⟩
  have h4 : cs "rst" <:+: cstr s.rx_buffer := by
    rcases h with h | h | h | h
    · exact absurd h h1
    · exact absurd h h2
    · exact absurd h h3
    · exact h
  exact ⟨_, by rw [if_neg h1, if_neg h2, if_neg h3, if_pos h4]⟩

theorem wait_loop_firstExit (schedule : List (List Nat)) : ∀ (s : Session) (p : List Nat),
    Holds s p → (∀ b ∈ p ++ schedule.flatten, b ≠ 0) → (p ++ schedule.flatten).length ≤ 256 →
    (firstExit p schedule = none → wait_loop schedule s = none)
    ∧ (∀ t, firstExit p schedule = some t →
        ∃ s1, Holds s1 t ∧ SameFlags s s1 ∧ cstr s1.rx_buffer = t
          ∧ wait_loop schedule s = wait_iteration s1 ∧ Exits t
          ∧ t <+: p ++ schedule.flatten) := by
  induction schedule with
  | nil =>
    intro s p _ _ _
    simp [firstExit, wait_loop]
  | cons c rest ih =>
    intro s p h hz hl
    simp only [List.flatten_cons, ← List.append_assoc] at hz hl
    have hl1 : p.length + c.length ≤ 256 := by
      simp only [List.length_append] at hl; omega
    obtain ⟨h1, f1⟩ := uart4_receive_holds c s p h hl1
    have hz1 : ∀ b ∈ p ++ c, b ≠ 0 := fun b hb => hz b (List.mem_append_left _ hb)
    have hc1 : cstr (uart4_receive c s).rx_buffer = p ++ c := holds_cstr _ _ h1 hz1
    by_cases hx : Exits (p ++ c)
    · have hfe : firstExit p (c :: rest) = some (p ++ c) := by simp [firstExit, hx]
      obtain ⟨s2, hs2⟩ := wait_iteration_isSome (uart4_receive c s) (by rw [hc1]; exact hx)
      refine ⟨by simp [hfe], ?_⟩
      intro t ht
      rw [hfe] at ht
      cases ht
      refine ⟨uart4_receive c s, h1, f1, hc1, ?_, hx, ?_⟩
      · simp [wait_loop, hs2]
      · simp [List.flatten_cons, ← List.append_assoc]
    · have hfe : firstExit p (c :: rest) = firstExit (p ++ c) rest := by simp [firstExit, hx]
      have hw : wait_loop (c :: rest) s = wait_loop rest (uart4_receive c s) := by
        simp [wait_loop, wait_iteration_none (uart4_receive c s) (by rw [hc1]; exact hx)]
      obtain ⟨ih1, ih2⟩ := ih (uart4_receive c s) (p ++ c) h1 hz hl
      rw [hfe, hw]
      refine ⟨ih1, ?_⟩
      intro t ht
      obtain ⟨s1, a, b, c1, d, e, f⟩ := ih2 t ht
      refine ⟨s1, a, ⟨f1.1.trans b.1, f1.2.1.trans b.2.1, f1.2.2.trans b.2.2⟩, c1, d, e, ?_⟩
      simpa [List.flatten_cons, ← List.append_assoc] using f

/-! ## `get_return` on the fixed commands -/

theorem get_return_eq_evaluate (s : Session) (command : List Nat)
    (h : command ∈ plainCommands) : get_return s command = evaluate s := by
  have hc : canonical command = command := by revert command; decide
  have hk : hash command = ESP8266_AT_KEY ∨ hash command = ESP8266_AT_GMR_KEY
      ∨ hash command = ESP8266_AT_RST_KEY ∨ hash command = ESP8266_AT_CWMODE_STATION_MODE_KEY
      ∨ hash command = ESP8266_AT_CIPMUX_KEY ∨ hash command = ESP8266_AT_CWQAP_KEY := by
    revert command; decide
  unfold get_return
  simp only [hc]
  rw [if_pos hk]

/-- C1: for each of the six plain status commands and every session state, `get_return`
gives "OK" when neither flag is set and "ERROR" when one is set, and replacing the buffer
content never changes the result. -/
theorem get_return_plain (command : List Nat) (h : command ∈ plainCommands) (s : Session) :
    (s.error_flag = false ∧ s.fail_flag = false → get_return s command = cs "OK")
    ∧ (s.error_flag = true ∨ s.fail_flag = true → get_return s command = cs "ERROR")
    ∧ (∀ buffer : List Nat,
        get_return { s with rx_buffer := buffer } command = get_return s command) := by
  refine ⟨?_, ?_, ?_⟩
  · rintro ⟨he, hf⟩
    rw [get_return_eq_evaluate s command h]
    simp [evaluate, he, hf, ESP8266_AT_OK]
  · intro hflag
    rw [get_return_eq_evaluate s command h]
    rcases hflag with he | hf
    · simp [evaluate, he, ESP8266_AT_ERROR]
    · simp [evaluate, hf, ESP8266_AT_ERROR]
  · intro buffer
    rw [get_return_eq_evaluate s command h, get_return_eq_evaluate _ command h]
    rfl

theorem get_return_plain_witness :
    cs "AT+CWMODE=1\r\n" ∈ plainCommands
    ∧ get_return { rx_variable := 10, rx_buffer_index := 7, error_flag := true,
                   fail_flag := false, rx_buffer := cs "ERROR\r\n", uart_tx := [] }
        (cs "AT+CWMODE=1\r\n") = cs "ERROR" :=
  ⟨by decide, (get_return_plain _ (by decide) _).2.1 (Or.inl rfl)⟩

/-- C8: for the mode query "AT+CWMODE_CUR?\r\n", `get_return` gives "ERROR" when a flag is
set; otherwise the first of "CWMODE_CUR:1", "CWMODE_CUR:2", "CWMODE_CUR:3" that the string
in the buffer contains, and "UNKNOWN" when it contains none of them. -/
theorem get_return_cwmode_test (s : Session) :
    (s.error_flag = true ∨ s.fail_flag = true →
      get_return s (cs "AT+CWMODE_CUR?\r\n") = cs "ERROR")
    ∧ (s.error_flag = false ∧ s.fail_flag = false →
      (cs "CWMODE_CUR:1" <:+: cstr s.rx_buffer →
        get_return s (cs "AT+CWMODE_CUR?\r\n") = cs "CWMODE_CUR:1")
      ∧ (¬ cs "CWMODE_CUR:1" <:+: cstr s.rx_buffer → cs "CWMODE_CUR:2" <:+: cstr s.rx_buffer →
        get_return s (cs "AT+CWMODE_CUR?\r\n") = cs "CWMODE_CUR:2")
      ∧ (¬ cs "CWMODE_CUR:1" <:+: cstr s.rx_buffer → ¬ cs "CWMODE_CUR:2" <:+: cstr s.rx_buffer →
        cs "CWMODE_CUR:3" <:+: cstr s.rx_buffer →
        get_return s (cs "AT+CWMODE_CUR?\r\n") = cs "CWMODE_CUR:3")
      ∧ (¬ cs "CWMODE_CUR:1" <:+: cstr s.rx_buffer → ¬ cs "CWMODE_CUR:2" <:+: cstr s.rx_buffer →
        ¬ cs "CWMODE_CUR:3" <:+: cstr s.rx_buffer →
        get_return s (cs "AT+CWMODE_CUR?\r\n") = cs "UNKNOWN")) := by
  have hc : canonical (cs "AT+CWMODE_CUR?\r\n") = cs "AT+CWMODE_CUR?\r\n" := by decide
  have hk : hash (cs "AT+CWMODE_CUR?\r\n") = 4116713283 := by decide
  obtain ⟨m1, m2, m3, -⟩ := cstr_cs_markers
  have key : get_return s (cs "AT+CWMODE_CUR?\r\n") =
      if s.error_flag || s.fail_flag then ESP8266_AT_ERROR
      else if (strstr s.rx_buffer ESP8266_AT_CWMODE_1).isSome then ESP8266_AT_CWMODE_1
      else if (strstr s.rx_buffer ESP8266_AT_CWMODE_2).isSome then ESP8266_AT_CWMODE_2
      else if (strstr s.rx_buffer ESP8266_AT_CWMODE_3).isSome then ESP8266_AT_CWMODE_3
      else ESP8266_AT_UNKNOWN := by
    unfold get_return
    simp only [hc, hk]
    simp [ESP8266_AT_KEY, ESP8266_AT_GMR_KEY, ESP8266_AT_RST_KEY,
      ESP8266_AT_CWMODE_STATION_MODE_KEY, ESP8266_AT_CIPMUX_KEY, ESP8266_AT_CWQAP_KEY,
      ESP8266_AT_CWMODE_TEST_KEY]
  rw [key]
  simp only [strstr_isSome_iff, m1, m2, m3]
  refine ⟨?_, ?_⟩
  · rintro (he | hf)
    · simp [he, ESP8266_AT_ERROR]
    · simp [hf, ESP8266_AT_ERROR]
  · rintro ⟨he, hf⟩
    refine ⟨?_, ?_, ?_, ?_⟩
    · intro h1
      simp [he, hf, h1, ESP8266_AT_CWMODE_1]
    · intro h1 h2
      simp [he, hf, h1, h2, ESP8266_AT_CWMODE_2]
    · intro h1 h2 h3
      simp [he, hf, h1, h2, h3, ESP8266_AT_CWMODE_3]
    · intro h1 h2 h3
      simp [he, hf, h1, h2, h3, ESP8266_AT_UNKNOWN]

theorem get_return_cwmode_test_witness :
    get_return { rx_variable := 10, rx_buffer_index := 21, error_flag := false,
                 fail_flag := false, rx_buffer := cs "+CWMODE_CUR:1\r\n\r\nOK\r\n" ++ [0, 0],
                 uart_tx := cs "AT+CWMODE_CUR?\r\n" }
      (cs "AT+CWMODE_CUR?\r\n") = cs "CWMODE_CUR:1" :=
  ((get_return_cwmode_test _).2 ⟨rfl, rfl⟩).1 ⟨cs "+", cs "\r\n\r\nOK\r\n", by decide⟩

/-- C10: for the query "AT+CWJAP?\r\n", `get_return` gives "ERROR" when a flag is set;
otherwise "WIFI DISCONNECTED" exactly when the string in the buffer contains "No AP\r\n",
and "WIFI CONNECTED" when it does not. -/
theorem get_return_cwjap_test (s : Session) :
    (s.error_flag = true ∨ s.fail_flag = true →
      get_return s (cs "AT+CWJAP?\r\n") = cs "ERROR")
    ∧ (s.error_flag = false ∧ s.fail_flag = false →
      (get_return s (cs "AT+CWJAP?\r\n") = cs "WIFI DISCONNECTED"
        ↔ cs "No AP\r\n" <:+: cstr s.rx_buffer)
      ∧ (¬ cs "No AP\r\n" <:+: cstr s.rx_buffer →
        get_return s (cs "AT+CWJAP?\r\n") = cs "WIFI CONNECTED")) := by
  have hc : canonical (cs "AT+CWJAP?\r\n") = cs "AT+CWJAP?\r\n" := by decide
  have hk : hash (cs "AT+CWJAP?\r\n") = 1543153456 := by decide
  obtain ⟨-, -, -, m, -⟩ := cstr_cs_markers
  have hne : cs "WIFI CONNECTED" ≠ cs "WIFI DISCONNECTED" := by decide
  have key : get_return s (cs "AT+CWJAP?\r\n") =
      if s.error_flag || s.fail_flag then ESP8266_AT_ERROR
      else if (strstr s.rx_buffer ESP8266_AT_NO_AP).isSome then ESP8266_AT_WIFI_DISCONNECTED
      else ESP8266_AT_WIFI_CONNECTED := by
    unfold get_return
    simp only [hc, hk]
    simp [ESP8266_AT_KEY, ESP8266_AT_GMR_KEY, ESP8266_AT_RST_KEY,
      ESP8266_AT_CWMODE_STATION_MODE_KEY, ESP8266_AT_CIPMUX_KEY, ESP8266_AT_CWQAP_KEY,
      ESP8266_AT_CWMODE_TEST_KEY, ESP8266_AT_CWJAP_TEST_KEY]
  rw [key]
  simp only [strstr_isSome_iff, m]
  refine ⟨?_, ?_⟩
  · rintro (he | hf)
    · simp [he, ESP8266_AT_ERROR]
    · simp [hf, ESP8266_AT_ERROR]
  · rintro ⟨he, hf⟩
    by_cases h : cs "No AP\r\n" <:+: cstr s.rx_buffer
    · simp [he, hf, h, ESP8266_AT_WIFI_DISCONNECTED]
    · simp [he, hf, h, hne, ESP8266_AT_WIFI_CONNECTED]

theorem get_return_cwjap_test_witness :
    get_return { rx_variable := 10, rx_buffer_index := 13, error_flag := false,
                 fail_flag := false, rx_buffer := cs "No AP\r\n\r\nOK\r\n" ++ [0, 0],
                 uart_tx := cs "AT+CWJAP?\r\n" }
      (cs "AT+CWJAP?\r\n") = cs "WIFI DISCONNECTED" :=
  (((get_return_cwjap_test _).2 ⟨rfl, rfl⟩).1).2 ⟨[], cs "\r\nOK\r\n", by decide⟩

/-- The multiplex query "AT+CIPMUX?\r\n": what `get_return` computes. -/
theorem get_return_cipmux_test_eq (s : Session) :
    get_return s (cs "AT+CIPMUX?\r\n") =
      if s.error_flag || s.fail_flag then cs "ERROR"
      else if cs "CIPMUX:0" <:+: cstr s.rx_buffer then cs "CIPMUX:0"
      else cs "CIPMUX:1" := by
  have hc : canonical (cs "AT+CIPMUX?\r\n") = cs "AT+CIPMUX?\r\n" := by decide
  have hk : hash (cs "AT+CIPMUX?\r\n") = 3657056785 := by decide
  obtain ⟨-, -, -, -, -, -, -, -, m, -⟩ := cstr_cs_markers
  unfold get_return
  simp only [hc, hk, strstr_isSome_iff, m]
  simp [ESP8266_AT_KEY, ESP8266_AT_GMR_KEY, ESP8266_AT_RST_KEY,
    ESP8266_AT_CWMODE_STATION_MODE_KEY, ESP8266_AT_CIPMUX_KEY, ESP8266_AT_CWQAP_KEY,
    ESP8266_AT_CWMODE_TEST_KEY, ESP8266_AT_CWJAP_TEST_KEY, ESP8266_AT_CWJAP_SET_KEY,
    ESP8266_AT_CIPMUX_TEST_KEY, ESP8266_AT_ERROR, ESP8266_AT_CIPMUX_0, ESP8266_AT_CIPMUX_1]

/-- C9, as the code behaves: with both flags clear and a buffer that holds the answer
"\r\nOK\r\n" (neither "CIPMUX:0" nor "CIPMUX:1"), `get_return` for "AT+CIPMUX?\r\n" gives
"CIPMUX:1" and not "UNKNOWN". -/
theorem get_return_cipmux_test_no_value :
    ¬ cs "CIPMUX:0" <:+: cstr (cs "\r\nOK\r\n" ++ List.replicate 4090 0)
    ∧ ¬ cs "CIPMUX:1" <:+: cstr (cs "\r\nOK\r\n" ++ List.replicate 4090 0)
    ∧ get_return { rx_variable := 10, rx_buffer_index := 6, error_flag := false,
                   fail_flag := false,
                   rx_buffer := cs "\r\nOK\r\n" ++ List.replicate 4090 0,
                   uart_tx := cs "AT+CIPMUX?\r\n" }
        (cs "AT+CIPMUX?\r\n") = cs "CIPMUX:1"
    ∧ cs "CIPMUX:1" ≠ cs "UNKNOWN" := by
  have hb : cstr (cs "\r\nOK\r\n" ++ List.replicate 4090 0) = cs "\r\nOK\r\n" := by
    simp [cstr, cs, List.replicate_succ, List.takeWhile]
  have h0 : ¬ cs "CIPMUX:0" <:+: cs "\r\nOK\r\n" := by decide
  have h1 : ¬ cs "CIPMUX:1" <:+: cs "\r\nOK\r\n" := by decide
  refine ⟨by rw [hb]; exact h0, by rw [hb]; exact h1, ?_, by decide⟩
  rw [get_return_cipmux_test_eq]
  simp only [hb, h0]
  simp

/-! ## The parameterised commands -/

theorem cstr_append (a b : List Nat) (hz : ∀ x ∈ a, x ≠ 0) : cstr (a ++ b) = a ++ cstr b := by
  unfold cstr
  rw [List.takeWhile_append_of_pos (by simpa using hz)]

theorem get_return_congr (s : Session) (c1 c2 : List Nat) (h : canonical c1 = canonical c2) :
    get_return s c1 = get_return s c2 := by
  unfold get_return
  rw [h]

theorem canonical_cwjap_set (suffix : List Nat) :
    canonical (cs "AT+CWJAP=" ++ suffix) = ESP8266_AT_CWJAP_SET := by
  have h : (strstr (cs "AT+CWJAP=" ++ suffix) ESP8266_AT_CWJAP_SET).isSome = true := by
    rw [strstr_isSome_iff, cstr_append _ _ (by decide)]
    exact ⟨[], cstr suffix, by simp [show cstr ESP8266_AT_CWJAP_SET = cs "AT+CWJAP=" by decide]⟩
  unfold canonical
  rw [if_pos h]

theorem get_return_cwjap_set_eq (s : Session) (command : List Nat)
    (h : canonical command = ESP8266_AT_CWJAP_SET) :
    get_return s command =
      if s.fail_flag || s.error_flag then
        if cs "CWJAP:1" <:+: cstr s.rx_buffer then cs "connection timeout"
        else if cs "CWJAP:2" <:+: cstr s.rx_buffer then cs "wrong password"
        else if cs "CWJAP:3" <:+: cstr s.rx_buffer then cs "cannot find AP"
        else if cs "CWJAP:4" <:+: cstr s.rx_buffer then cs "connection failed"
        else cs "ERROR"
      else cs "WIFI CONNECTED" := by
  have hk : hash ESP8266_AT_CWJAP_SET = 2616259383 := by decide
  obtain ⟨-, -, -, -, m1, m2, m3, m4, -⟩ := cstr_cs_markers
  unfold get_return
  simp only [h, hk, strstr_isSome_iff, m1, m2, m3, m4]
  simp [ESP8266_AT_KEY, ESP8266_AT_GMR_KEY, ESP8266_AT_RST_KEY,
    ESP8266_AT_CWMODE_STATION_MODE_KEY, ESP8266_AT_CIPMUX_KEY, ESP8266_AT_CWQAP_KEY,
    ESP8266_AT_CWMODE_TEST_KEY, ESP8266_AT_CWJAP_TEST_KEY, ESP8266_AT_CWJAP_SET_KEY,
    ESP8266_AT_ERROR, ESP8266_AT_TIMEOUT, ESP8266_AT_WRONG_PWD, ESP8266_AT_NO_TARGET,
    ESP8266_AT_CONNECTION_FAIL, ESP8266_AT_WIFI_CONNECTED]

/-- On every schedule that delivers "+CWJAP:2\r\nFAIL\r\n", the wait loop is left on a
buffer content that begins the stream and contains "FAIL". -/
theorem firstExit_wrong_password (schedule : List (List Nat)) : ∀ p : List Nat,
    p ++ schedule.flatten = cs "+CWJAP:2\r\nFAIL\r\n" → ¬ cs "FAIL" <:+: p →
    ∃ t, firstExit p schedule = some t ∧ cs "FAIL" <:+: t := by
  induction schedule with
  | nil =>
    intro p hp hn
    simp only [List.flatten_nil, List.append_nil] at hp
    subst hp
    exact absurd (by decide) hn
  | cons c rest ih =>
    intro p hp hn
    simp only [List.flatten_cons, ← List.append_assoc] at hp
    have hpre : p ++ c <+: cs "+CWJAP:2\r\nFAIL\r\n" := ⟨rest.flatten, hp⟩
    have hno : ∀ m, ¬ m <:+: cs "+CWJAP:2\r\nFAIL\r\n" → ¬ m <:+: p ++ c :=
      fun m hm h => hm (h.trans hpre.isInfix)
    by_cases hf : cs "FAIL" <:+: p ++ c
    · exact ⟨p ++ c, by simp [firstExit, Exits, hf], hf⟩
    · have hx : ¬ Exits (p ++ c) := by
        simp only [Exits, not_or]
        exact ⟨hno _ (by decide), hno _ (by decide), hf, hno _ (by decide)⟩
      obtain ⟨t, ht, hft⟩ := ih (p ++ c) hp hf
      exact ⟨t, by simp [firstExit, hx, ht], hft⟩

theorem wrong_password_marker (t : List Nat) (hpre : t <+: cs "+CWJAP:2\r\nFAIL\r\n")
    (hf : cs "FAIL" <:+: t) : cs "CWJAP:2" <:+: t := by
  have hall : ∀ k < 17, cs "FAIL" <:+: (cs "+CWJAP:2\r\nFAIL\r\n").take k →
      cs "CWJAP:2" <:+: (cs "+CWJAP:2\r\nFAIL\r\n").take k := by decide
  have hlen : t.length ≤ 16 := hpre.length_le
  rw [List.prefix_iff_eq_take] at hpre
  rw [hpre] at hf ⊢
  exact hall _ (by omega) hf

/-- C2: for every command that begins with "AT+CWJAP=" and every session state,
`get_return` gives "WIFI CONNECTED" when neither flag is set; when a flag is set it gives
"connection timeout", "wrong password", "cannot find AP" or "connection failed" for the
first of "CWJAP:1" .. "CWJAP:4" that the string in the buffer contains, and "ERROR" when it
contains none. Sending AT+CWJAP="ssid","wrongpwd" and receiving "+CWJAP:2\r\nFAIL\r\n",
in whatever chunks, returns "wrong password". -/
theorem get_return_cwjap_set (suffix : List Nat) (s : Session) :
    (s.error_flag = false ∧ s.fail_flag = false →
      get_return s (cs "AT+CWJAP=" ++ suffix) = cs "WIFI CONNECTED")
    ∧ (s.error_flag = true ∨ s.fail_flag = true →
      (cs "CWJAP:1" <:+: cstr s.rx_buffer →
        get_return s (cs "AT+CWJAP=" ++ suffix) = cs "connection timeout")
      ∧ (¬ cs "CWJAP:1" <:+: cstr s.rx_buffer → cs "CWJAP:2" <:+: cstr s.rx_buffer →
        get_return s (cs "AT+CWJAP=" ++ suffix) = cs "wrong password")
      ∧ (¬ cs "CWJAP:1" <:+: cstr s.rx_buffer → ¬ cs "CWJAP:2" <:+: cstr s.rx_buffer →
        cs "CWJAP:3" <:+: cstr s.rx_buffer →
        get_return s (cs "AT+CWJAP=" ++ suffix) = cs "cannot find AP")
      ∧ (¬ cs "CWJAP:1" <:+: cstr s.rx_buffer → ¬ cs "CWJAP:2" <:+: cstr s.rx_buffer →
        ¬ cs "CWJAP:3" <:+: cstr s.rx_buffer → cs "CWJAP:4" <:+: cstr s.rx_buffer →
        get_return s (cs "AT+CWJAP=" ++ suffix) = cs "connection failed")
      ∧ (¬ cs "CWJAP:1" <:+: cstr s.rx_buffer → ¬ cs "CWJAP:2" <:+: cstr s.rx_buffer →
        ¬ cs "CWJAP:3" <:+: cstr s.rx_buffer → ¬ cs "CWJAP:4" <:+: cstr s.rx_buffer →
        get_return s (cs "AT+CWJAP=" ++ suffix) = cs "ERROR"))
    ∧ (∀ (ending : List Nat) (schedule : List (List Nat)) (s0 : Session),
        schedule.flatten = cs "+CWJAP:2\r\nFAIL\r\n" →
        ∃ s1, esp8266_send_command (cs "AT+CWJAP=\"ssid\",\"wrongpwd\"" ++ ending) schedule s0
          = some (s1, cs "wrong password")) := by
  refine ⟨?_, ?_, ?_⟩
  · rintro ⟨he, hf⟩
    rw [get_return_cwjap_set_eq s _ (canonical_cwjap_set suffix)]
    simp [he, hf]
  · intro hflag
    have hb : (s.fail_flag || s.error_flag) = true := by
      rcases hflag with h | h <;> simp [h]
    rw [get_return_cwjap_set_eq s _ (canonical_cwjap_set suffix), if_pos hb]
    refine ⟨?_, ?_, ?_, ?_, ?_⟩
    · intro h1
      rw [if_pos h1]
    · intro h1 h2
      rw [if_neg h1, if_pos h2]
    · intro h1 h2 h3
      rw [if_neg h1, if_neg h2, if_pos h3]
    · intro h1 h2 h3 h4
      rw [if_neg h1, if_neg h2, if_neg h3, if_pos h4]
    · intro h1 h2 h3 h4
      rw [if_neg h1, if_neg h2, if_neg h3, if_neg h4]
  · intro ending schedule s0 hsched
    have hcmd : cs "AT+CWJAP=\"ssid\",\"wrongpwd\"" ++ ending
        = cs "AT+CWJAP=" ++ (cs "\"ssid\",\"wrongpwd\"" ++ ending) := by
      rw [← List.append_assoc]; rfl
    generalize hcg : cs "AT+CWJAP=\"ssid\",\"wrongpwd\"" ++ ending = command at hcmd
    have hcan : canonical command = ESP8266_AT_CWJAP_SET := by
      rw [hcmd]; exact canonical_cwjap_set _
    obtain ⟨-, hexit⟩ := wait_loop_firstExit schedule
      (HAL_UART_Transmit command (strlen command) (esp8266_clear s0)) []
      (holds_after_clear _ _ _)
      (by rw [List.nil_append, hsched]; decide) (by rw [List.nil_append, hsched]; decide)
    obtain ⟨t, ht, hft⟩ := firstExit_wrong_password schedule [] (by simpa using hsched)
      (by decide)
    obtain ⟨s1, -, -, hc, hw, -, hpre⟩ := hexit t ht
    rw [List.nil_append, hsched] at hpre
    have hno : ∀ m, ¬ m <:+: cs "+CWJAP:2\r\nFAIL\r\n" → ¬ m <:+: t :=
      fun m hm h => hm (h.trans hpre.isInfix)
    have hwi : wait_iteration s1 = some { s1 with fail_flag := true } := by
      rw [wait_iteration_eq, hc, if_neg (hno _ (by decide)), if_neg (hno _ (by decide)),
        if_pos hft]
    refine ⟨{ s1 with fail_flag := true }, ?_⟩
    unfold esp8266_send_command
    simp only [hw, hwi]
    rw [get_return_cwjap_set_eq _ _ hcan]
    simp only [hc, Bool.true_or, if_true]
    rw [if_neg (hno _ (by decide)), if_pos (wrong_password_marker t hpre hft)]

theorem get_return_cwjap_set_witness :
    ∃ s1, esp8266_send_command (cs "AT+CWJAP=\"ssid\",\"wrongpwd\"" ++ cs "\r\n")
        [cs "+CWJAP:2\r\n", cs "FAIL\r\n"] startup
      = some (s1, cs "wrong password") :=
  (get_return_cwjap_set [] startup).2.2 _ _ _ (by decide)

/-- C3, against the claim: when the module answers "+CWJAP:1\r\n\r\nFAIL\r\n",
`esp8266_wifi_init` returns "connection timeout", and when it answers "\r\nERROR\r\n" it
returns "ERROR"; neither is one of the five documented strings. -/
theorem esp8266_wifi_init_undocumented :
    (esp8266_wifi_init (cs "ssid") (cs "pwd") [cs "+CWJAP:1\r\n\r\nFAIL\r\n"] startup).map
        Prod.snd = some (cs "connection timeout")
    ∧ cs "connection timeout" ∉ [cs "WIFI CONNECTED", cs "wrong password",
        cs "cannot find AP", cs "connection failed", cs "error"]
    ∧ (esp8266_wifi_init (cs "ssid") (cs "pwd") [cs "\r\nERROR\r\n"] startup).map
        Prod.snd = some (cs "ERROR")
    ∧ cs "ERROR" ∉ [cs "WIFI CONNECTED", cs "wrong password",
        cs "cannot find AP", cs "connection failed", cs "error"] := by
  decide

/-- C3, amended: whenever `esp8266_wifi_init` returns, for every `SSID`, `PWD`, prior state
and answer of the module, the returned string is one of "WIFI CONNECTED",
"connection timeout", "wrong password", "cannot find AP", "connection failed", "ERROR". -/
theorem esp8266_wifi_init_returns (SSID PWD : List Nat) (schedule : List (List Nat))
    (s s1 : Session) (r : List Nat)
    (h : esp8266_wifi_init SSID PWD schedule s = some (s1, r)) :
    r ∈ [cs "WIFI CONNECTED", cs "connection timeout", cs "wrong password",
         cs "cannot find AP", cs "connection failed", cs "ERROR"] := by
  have hcan : canonical (esp8266_get_wifi_command SSID PWD) = ESP8266_AT_CWJAP_SET := by
    unfold esp8266_get_wifi_command
    rw [show cstr ESP8266_AT_CWJAP_SET = cs "AT+CWJAP=" by decide]
    simp only [List.append_assoc]
    exact canonical_cwjap_set _
  unfold esp8266_wifi_init esp8266_send_command at h
  simp only at h
  split at h
  · rename_i s3 _
    simp only [Option.some.injEq, Prod.mk.injEq] at h
    rw [← h.2, get_return_cwjap_set_eq _ _ hcan]
    split_ifs <;> simp
  · exact absurd h (by simp)

theorem esp8266_wifi_init_returns_witness :
    cs "wrong password" ∈ [cs "WIFI CONNECTED", cs "connection timeout", cs "wrong password",
         cs "cannot find AP", cs "connection failed", cs "ERROR"] :=
  esp8266_wifi_init_returns (cs "ssid") (cs "wrongpwd") [cs "+CWJAP:2\r\n", cs "FAIL\r\n"]
    startup
    { rx_variable := 10, rx_buffer_index := 16, error_flag := false, fail_flag := true,
      rx_buffer := cs "+CWJAP:2\r\nFAIL\r\n" ++ List.replicate 4080 0,
      uart_tx := cs "AT+CWJAP=\"ssid\",\"wrongpwd\"\r\n" }
    (cs "wrong password") rfl

theorem canonical_start (suffix : List Nat) (h1 : ¬ cs "AT+CWJAP=" <:+: cstr suffix) :
    canonical (cs "AT+CIPSTART=" ++ suffix) = ESP8266_AT_START := by
  have e0 : cs "AT+CIPSTART=" = [65, 84, 43, 67, 73, 80, 83, 84, 65, 82, 84, 61] := by decide
  have e1 : cs "AT+CWJAP=" = [65, 84, 43, 67, 87, 74, 65, 80, 61] := by decide
  have n1 : ¬ (strstr (cs "AT+CIPSTART=" ++ suffix) ESP8266_AT_CWJAP_SET).isSome = true := by
    rw [strstr_isSome_iff, cstr_append _ _ (by decide),
      show cstr ESP8266_AT_CWJAP_SET = cs "AT+CWJAP=" by decide]
    rw [e1] at h1
    simp [e0, e1, List.infix_cons_iff, h1]
  have p2 : (strstr (cs "AT+CIPSTART=" ++ suffix) ESP8266_AT_START).isSome = true := by
    rw [strstr_isSome_iff, cstr_append _ _ (by decide)]
    exact ⟨[], cstr suffix, by simp [show cstr ESP8266_AT_START = cs "AT+CIPSTART=" by decide]⟩
  unfold canonical
  rw [if_neg n1, if_pos p2]

theorem canonical_send (suffix : List Nat) (h1 : ¬ cs "AT+CWJAP=" <:+: cstr suffix)
    (h2 : ¬ cs "AT+CIPSTART=" <:+: cstr suffix) :
    canonical (cs "AT+CIPSEND=" ++ suffix) = ESP8266_AT_SEND := by
  have e0 : cs "AT+CIPSEND=" = [65, 84, 43, 67, 73, 80, 83, 69, 78, 68, 61] := by decide
  have e1 : cs "AT+CWJAP=" = [65, 84, 43, 67, 87, 74, 65, 80, 61] := by decide
  have e2 : cs "AT+CIPSTART=" = [65, 84, 43, 67, 73, 80, 83, 84, 65, 82, 84, 61] := by decide
  have n1 : ¬ (strstr (cs "AT+CIPSEND=" ++ suffix) ESP8266_AT_CWJAP_SET).isSome = true := by
    rw [strstr_isSome_iff, cstr_append _ _ (by decide),
      show cstr ESP8266_AT_CWJAP_SET = cs "AT+CWJAP=" by decide]
    rw [e1] at h1
    simp [e0, e1, List.infix_cons_iff, h1]
  have n2 : ¬ (strstr (cs "AT+CIPSEND=" ++ suffix) ESP8266_AT_START).isSome = true := by
    rw [strstr_isSome_iff, cstr_append _ _ (by decide),
      show cstr ESP8266_AT_START = cs "AT+CIPSTART=" by decide]
    rw [e2] at h2
    simp [e0, e2, List.infix_cons_iff, h2]
  have p3 : (strstr (cs "AT+CIPSEND=" ++ suffix) ESP8266_AT_SEND).isSome = true := by
    rw [strstr_isSome_iff, cstr_append _ _ (by decide)]
    exact ⟨[], cstr suffix, by simp [show cstr ESP8266_AT_SEND = cs "AT+CIPSEND=" by decide]⟩
  unfold canonical
  rw [if_neg n1, if_neg n2, if_pos p3]

/-- C4, against the claim: the suffix `"TCP","AT+CWJAP=",80\r\n` after "AT+CIPSTART=" makes
`get_return` answer as for the join-access-point command ("WIFI CONNECTED") and not as for
the bare prefix "AT+CIPSTART=" ("CONNECT"). -/
theorem get_return_suffix_changes_identity :
    get_return startup (cs "AT+CIPSTART=" ++ cs "\"TCP\",\"AT+CWJAP=\",80\r\n")
      = cs "WIFI CONNECTED"
    ∧ get_return startup (cs "AT+CIPSTART=") = cs "CONNECT"
    ∧ get_return startup (cs "AT+CIPSTART=" ++ cs "\"TCP\",\"AT+CWJAP=\",80\r\n")
      ≠ get_return startup (cs "AT+CIPSTART=") := by
  decide

/-- C4, amended: for every session state, `get_return` on a prefix followed by a suffix
equals `get_return` on the bare prefix, for "AT+CWJAP=" with every suffix, for
"AT+CIPSTART=" with every suffix that does not contain "AT+CWJAP=", and for "AT+CIPSEND="
with every suffix that contains neither "AT+CWJAP=" nor "AT+CIPSTART=". -/
theorem get_return_suffix (suffix : List Nat) (s : Session) :
    get_return s (cs "AT+CWJAP=" ++ suffix) = get_return s (cs "AT+CWJAP=")
    ∧ (¬ cs "AT+CWJAP=" <:+: cstr suffix →
        get_return s (cs "AT+CIPSTART=" ++ suffix) = get_return s (cs "AT+CIPSTART="))
    ∧ (¬ cs "AT+CWJAP=" <:+: cstr suffix → ¬ cs "AT+CIPSTART=" <:+: cstr suffix →
        get_return s (cs "AT+CIPSEND=" ++ suffix) = get_return s (cs "AT+CIPSEND=")) := by
  refine ⟨?_, ?_, ?_⟩
  · apply get_return_congr
    rw [canonical_cwjap_set]
    decide
  · intro h1
    apply get_return_congr
    rw [canonical_start suffix h1]
    decide
  · intro h1 h2
    apply get_return_congr
    rw [canonical_send suffix h1 h2]
    decide

theorem get_return_suffix_witness :
    get_return startup (cs "AT+CIPSEND=" ++ cs "18\r\n") = get_return startup (cs "AT+CIPSEND=") :=
  (get_return_suffix (cs "18\r\n") startup).2.2 (by decide) (by decide)

/-- C5, against the claim: " AT+CIPSEND=4\r\n" is none of the nine fixed commands and does
not begin with any of the three prefixes, yet `get_return` gives "SEND OK", because it
contains "AT+CIPSEND="; and "AT+CLIJPBA\r\n" is none of them either, yet `get_return` gives
"OK", because its djb2 hash is the key of "AT\r\n". -/
theorem get_return_unknown_text_recognised :
    cs " AT+CIPSEND=4\r\n" ∉ fixedCommands
    ∧ (∀ p ∈ [cs "AT+CWJAP=", cs "AT+CIPSTART=", cs "AT+CIPSEND="],
        ¬ p <+: cs " AT+CIPSEND=4\r\n")
    ∧ get_return startup (cs " AT+CIPSEND=4\r\n") = cs "SEND OK"
    ∧ cs "AT+CLIJPBA\r\n" ∉ fixedCommands
    ∧ (∀ p ∈ [cs "AT+CWJAP=", cs "AT+CIPSTART=", cs "AT+CIPSEND="],
        ¬ p <+: cs "AT+CLIJPBA\r\n")
    ∧ hash (cs "AT+CLIJPBA\r\n") = ESP8266_AT_KEY
    ∧ get_return startup (cs "AT+CLIJPBA\r\n") = cs "OK"
    ∧ cs "SEND OK" ≠ cs "NOT IMPLEMENTED" ∧ cs "OK" ≠ cs "NOT IMPLEMENTED" := by
  decide

/-- C5, amended: for every command text that contains none of "AT+CWJAP=", "AT+CIPSTART=",
"AT+CIPSEND=" anywhere and whose djb2 hash is none of the twelve `KEYS` constants, and for
every session state, `get_return` gives "NOT IMPLEMENTED". -/
theorem get_return_not_implemented (command : List Nat) (s : Session)
    (h1 : ¬ cs "AT+CWJAP=" <:+: cstr command) (h2 : ¬ cs "AT+CIPSTART=" <:+: cstr command)
    (h3 : ¬ cs "AT+CIPSEND=" <:+: cstr command) (hk : hash command ∉ allKeys) :
    get_return s command = cs "NOT IMPLEMENTED" := by
  have n1 : ¬ (strstr command ESP8266_AT_CWJAP_SET).isSome = true := by
    rw [strstr_isSome_iff, show cstr ESP8266_AT_CWJAP_SET = cs "AT+CWJAP=" by decide]
    exact h1
  have n2 : ¬ (strstr command ESP8266_AT_START).isSome = true := by
    rw [strstr_isSome_iff, show cstr ESP8266_AT_START = cs "AT+CIPSTART=" by decide]
    exact h2
  have n3 : ¬ (strstr command ESP8266_AT_SEND).isSome = true := by
    rw [strstr_isSome_iff, show cstr ESP8266_AT_SEND = cs "AT+CIPSEND=" by decide]
    exact h3
  have hc : canonical command = command := by
    unfold canonical
    rw [if_neg n1, if_neg n2, if_neg n3]
  simp only [allKeys, List.mem_cons, List.mem_singleton, not_or, List.not_mem_nil, or_false]
    at hk
  obtain ⟨k1, k2, k3, k4, k5, k6, k7, k8, k9, k10, k11, k12⟩ := hk
  unfold get_return
  simp only [hc]
  simp [k1, k2, k3, k4, k5, k6, k7, k8, k9, k10, k11, k12, ESP8266_NOT_IMPLEMENTED]

theorem get_return_not_implemented_witness :
    get_return startup (cs "AT+CIPCLOSE=0") = cs "NOT IMPLEMENTED" :=
  get_return_not_implemented (cs "AT+CIPCLOSE=0") startup (by decide) (by decide) (by decide)
    (by decide)

/-! ## Order of arrival of the markers -/

theorem infix_take_iff (m : List Nat) : ∀ (r : List Nat) (k : Nat),
    m <:+: r.take k ↔ ∃ i, findFirst m r = some i ∧ i + m.length ≤ k := by
  intro r
  induction r with
  | nil =>
    intro k
    cases m <;> simp [findFirst, List.isPrefixOf]
  | cons c t ih =>
    intro k
    have hcons : findFirst m (c :: t) =
        if m.isPrefixOf (c :: t) then some 0 else (findFirst m t).map Nat.succ := rfl
    cases k with
    | zero =>
      cases m with
      | nil => simp [hcons]
      | cons a m1 => simp
    | succ k =>
      have htake : (c :: t).take (k + 1) = c :: t.take k := rfl
      rw [hcons]
      by_cases hp : m.isPrefixOf (c :: t) = true
      · rw [if_pos hp]
        have hp1 : m <+: c :: t := List.isPrefixOf_iff_prefix.mp hp
        constructor
        · intro h
          refine ⟨0, rfl, ?_⟩
          rw [htake, List.infix_cons_iff] at h
          rcases h with h | h
          · have := h.length_le
            simp only [List.length_cons, List.length_take] at this
            omega
          · have := h.length_le
            simp only [List.length_take] at this
            omega
        · rintro ⟨i, hi, hle⟩
          simp only [Option.some.injEq] at hi
          subst hi
          exact (List.prefix_take_iff.mpr ⟨hp1, by omega⟩).isInfix
      · rw [if_neg hp]
        have hp1 : ¬ m <+: c :: t := fun h => hp (List.isPrefixOf_iff_prefix.mpr h)
        have hp2 : ¬ m <+: c :: t.take k := by
          rw [← htake]
          exact fun h => hp1 (List.prefix_take_iff.mp h).1
        rw [htake, List.infix_cons_iff, ih k]
        constructor
        · rintro (h | ⟨i, hi, hle⟩)
          · exact absurd h hp2
          · exact ⟨i + 1, by simp [hi], by omega⟩
        · rintro ⟨i, hi, hle⟩
          right
          cases hf : findFirst m t with
          | none => simp [hf] at hi
          | some j =>
            simp only [hf, Option.map_some', Option.some.injEq] at hi
            exact ⟨j, rfl, by omega⟩

theorem infix_take_iff_completes (m r : List Nat) (k : Nat) :
    m <:+: r.take k ↔ ∃ e, completes m r = some e ∧ e ≤ k := by
  rw [infix_take_iff]
  unfold completes
  constructor
  · rintro ⟨i, hi, hle⟩
    exact ⟨i + m.length, by simp [hi], hle⟩
  · rintro ⟨e, he, hle⟩
    cases hf : findFirst m r with
    | none => simp [hf] at he
    | some j =>
      simp only [hf, Option.map_some', Option.some.injEq] at he
      exact ⟨j, rfl, by omega⟩

theorem completes_le_length (m r : List Nat) (e : Nat) (h : completes m r = some e) :
    e ≤ r.length := by
  have h1 : m <:+: r.take e := (infix_take_iff_completes m r e).mpr ⟨e, h, le_refl _⟩
  have h2 : m <:+: r.take r.length := by
    rw [List.take_length]
    exact h1.trans (List.take_prefix e r).isInfix
  obtain ⟨e1, he1, hle⟩ := (infix_take_iff_completes m r r.length).mp h2
  rw [h] at he1
  cases he1
  exact hle

theorem firstExit_everyByte (r : List Nat) (e : Nat) (he : e ≤ r.length)
    (hnone : ∀ j, j < e → ¬ Exits (r.take j)) (hex : Exits (r.take e)) :
    ∀ (n k : Nat), k + 1 + n = e →
      firstExit (r.take k) (everyByte (r.drop k)) = some (r.take e) := by
  intro n
  induction n with
  | zero =>
    intro k hk
    have hk1 : k < r.length := by omega
    rw [List.drop_eq_getElem_cons hk1]
    simp only [everyByte, List.map_cons, firstExit]
    have hts : r.take k ++ [r[k]] = r.take (k + 1) := by
      rw [List.take_succ, List.getElem?_eq_getElem hk1]; rfl
    rw [hts]
    have : k + 1 = e := by omega
    rw [this, if_pos hex]
  | succ n ih =>
    intro k hk
    have hk1 : k < r.length := by omega
    rw [List.drop_eq_getElem_cons hk1]
    simp only [everyByte, List.map_cons, firstExit]
    have hts : r.take k ++ [r[k]] = r.take (k + 1) := by
      rw [List.take_succ, List.getElem?_eq_getElem hk1]; rfl
    rw [hts, if_neg (hnone (k + 1) (by omega))]
    exact ih (k + 1) (by omega)

theorem flatten_everyByte (r : List Nat) : (everyByte r).flatten = r := by
  induction r with
  | nil => rfl
  | cons b t ih =>
    have h : everyByte (b :: t) = [b] :: everyByte t := rfl
    rw [h, List.flatten_cons, ih]
    rfl

theorem not_infix_take_of_later (m r : List Nat) (e j : Nat) (hj : j < e)
    (h : ∀ e1, completes m r = some e1 → e ≤ e1) : ¬ m <:+: r.take j := by
  intro hin
  obtain ⟨e1, he1, hle⟩ := (infix_take_iff_completes m r j).mp hin
  have := h e1 he1
  omega

/-- With one observation of the buffer after every byte of a stream that fits the
receiver, `esp8266_send_command` leaves its wait loop on the first `e` bytes, when `e` is
the first length at which a marker is complete. -/
theorem send_command_everyByte (command r : List Nat) (s : Session) (e : Nat)
    (hz : ∀ b ∈ r, b ≠ 0) (hl : r.length ≤ 256) (he : e ≤ r.length)
    (hnone : ∀ j, j < e → ¬ Exits (r.take j)) (hex : Exits (r.take e)) :
    ∃ s1, cstr s1.rx_buffer = r.take e ∧ s1.error_flag = false ∧ s1.fail_flag = false
      ∧ esp8266_send_command command (everyByte r) s
        = (wait_iteration s1).map (fun s3 => (s3, get_return s3 command)) := by
  have hpos : 0 < e := by
    rcases Nat.eq_zero_or_pos e with h0 | h0
    · subst h0
      exact absurd hex (by simp [Exits]; decide)
    · exact h0
  have hfe : firstExit [] (everyByte r) = some (r.take e) := by
    have := firstExit_everyByte r e he hnone hex (e - 1) 0 (by omega)
    simpa using this
  obtain ⟨-, hexit⟩ := wait_loop_firstExit (everyByte r)
    (HAL_UART_Transmit command (strlen command) (esp8266_clear s)) []
    (holds_after_clear _ _ _)
    (by rw [List.nil_append, flatten_everyByte]; exact hz)
    (by rw [List.nil_append, flatten_everyByte]; exact hl)
  obtain ⟨s1, -, fl, hc, hw, -, -⟩ := hexit _ hfe
  refine ⟨s1, hc, fl.1.symm, fl.2.1.symm, ?_⟩
  unfold esp8266_send_command
  simp only [hw]
  cases wait_iteration s1 <;> rfl

theorem arrival_facts (m r : List Nat) (e : Nat) (hm : completes m r = some e) :
    (∀ j, j < e → ¬ m <:+: r.take j) ∧ m <:+: r.take e ∧ e ≤ r.length := by
  refine ⟨fun j hj => not_infix_take_of_later m r e j hj ?_,
    (infix_take_iff_completes m r e).mpr ⟨e, hm, le_refl _⟩, completes_le_length m r e hm⟩
  intro e1 he1
  rw [hm] at he1
  cases he1
  exact le_refl _

theorem later_facts (x r : List Nat) (e : Nat)
    (hx : ∀ e1, completes x r = some e1 → e < e1) : ∀ j, j ≤ e → ¬ x <:+: r.take j :=
  fun j hj => not_infix_take_of_later x r (e + 1) j (by omega) (fun e1 he1 => hx e1 he1)

/-- C7, against the claim: the answer "ERROR\r\n\r\nOK\r\n", which has arrived in full when
the wait loop first looks at the buffer, leaves both flags clear and makes "AT\r\n" return
"OK", although "ERROR" is complete after 5 bytes and "OK\r\n" only after 13. -/
theorem send_command_snapshot_priority :
    completes (cs "ERROR") (cs "ERROR\r\n\r\nOK\r\n") = some 5
    ∧ completes (cs "OK\r\n") (cs "ERROR\r\n\r\nOK\r\n") = some 13
    ∧ completes (cs "FAIL") (cs "ERROR\r\n\r\nOK\r\n") = none
    ∧ completes (cs "rst") (cs "ERROR\r\n\r\nOK\r\n") = none
    ∧ (esp8266_send_command (cs "AT\r\n") [cs "ERROR\r\n\r\nOK\r\n"] startup).map
        (fun x => (x.1.error_flag, x.1.fail_flag, x.2)) = some (false, false, cs "OK") := by
  decide

/-- C7, amended: for every response stream without a zero byte and of at most 256 bytes,
when the wait loop of `esp8266_send_command` looks at the buffer after every received
byte, the loop is left and the marker that is complete first decides: no flag is set when
it is "OK\r\n", `error_flag` alone when it is "ERROR", `fail_flag` alone when it is "FAIL"
or "rst". -/
theorem send_command_order_of_arrival (command r : List Nat) (s : Session)
    (hz : ∀ b ∈ r, b ≠ 0) (hl : r.length ≤ 256) :
    (FirstToComplete (cs "OK\r\n") [cs "ERROR", cs "FAIL", cs "rst"] r →
      ∃ s1 ret, esp8266_send_command command (everyByte r) s = some (s1, ret)
        ∧ s1.error_flag = false ∧ s1.fail_flag = false)
    ∧ (FirstToComplete (cs "ERROR") [cs "OK\r\n", cs "FAIL", cs "rst"] r →
      ∃ s1 ret, esp8266_send_command command (everyByte r) s = some (s1, ret)
        ∧ s1.error_flag = true ∧ s1.fail_flag = false)
    ∧ (FirstToComplete (cs "FAIL") [cs "OK\r\n", cs "ERROR", cs "rst"] r →
      ∃ s1 ret, esp8266_send_command command (everyByte r) s = some (s1, ret)
        ∧ s1.error_flag = false ∧ s1.fail_flag = true)
    ∧ (FirstToComplete (cs "rst") [cs "OK\r\n", cs "ERROR", cs "FAIL"] r →
      ∃ s1 ret, esp8266_send_command command (everyByte r) s = some (s1, ret)
        ∧ s1.error_flag = false ∧ s1.fail_flag = true) := by
  refine ⟨?_, ?_, ?_, ?_⟩
  · rintro ⟨e, hm, hothers⟩
    obtain ⟨m0, m1, m2⟩ := arrival_facts _ r e hm
    have a := later_facts (cs "ERROR") r e (hothers _ (by simp))
    have b := later_facts (cs "FAIL") r e (hothers _ (by simp))
    have c := later_facts (cs "rst") r e (hothers _ (by simp))
    obtain ⟨s1, hc, hef, hff, hres⟩ := send_command_everyByte command r s e hz hl m2
      (fun j hj => by
        simp only [Exits, not_or]
        exact ⟨m0 j hj, a j (by omega), b j (by omega), c j (by omega)⟩)
      (Or.inl m1)
    have hwi : wait_iteration s1 = some s1 := by
      rw [wait_iteration_eq, hc, if_pos m1]
    exact ⟨s1, _, by rw [hres, hwi]; rfl, hef, hff⟩
  · rintro ⟨e, hm, hothers⟩
    obtain ⟨m0, m1, m2⟩ := arrival_facts _ r e hm
    have a := later_facts (cs "OK\r\n") r e (hothers _ (by simp))
    have b := later_facts (cs "FAIL") r e (hothers _ (by simp))
    have c := later_facts (cs "rst") r e (hothers _ (by simp))
    obtain ⟨s1, hc, hef, hff, hres⟩ := send_command_everyByte command r s e hz hl m2
      (fun j hj => by
        simp only [Exits, not_or]
        exact ⟨a j (by omega), m0 j hj, b j (by omega), c j (by omega)⟩)
      (Or.inr (Or.inl m1))
    have hwi : wait_iteration s1 = some { s1 with error_flag := true } := by
      rw [wait_iteration_eq, hc, if_neg (a e (le_refl _)), if_pos m1]
    exact ⟨{ s1 with error_flag := true }, _, by rw [hres, hwi]; rfl, rfl, hff⟩
  · rintro ⟨e, hm, hothers⟩
    obtain ⟨m0, m1, m2⟩ := arrival_facts _ r e hm
    have a := later_facts (cs "OK\r\n") r e (hothers _ (by simp))
    have b := later_facts (cs "ERROR") r e (hothers _ (by simp))
    have c := later_facts (cs "rst") r e (hothers _ (by simp))
    obtain ⟨s1, hc, hef, hff, hres⟩ := send_command_everyByte command r s e hz hl m2
      (fun j hj => by
        simp only [Exits, not_or]
        exact ⟨a j (by omega), b j (by omega), m0 j hj, c j (by omega)⟩)
      (Or.inr (Or.inr (Or.inl m1)))
    have hwi : wait_iteration s1 = some { s1 with fail_flag := true } := by
      rw [wait_iteration_eq, hc, if_neg (a e (le_refl _)), if_neg (b e (le_refl _)), if_pos m1]
    exact ⟨{ s1 with fail_flag := true }, _, by rw [hres, hwi]; rfl, hef, rfl⟩
  · rintro ⟨e, hm, hothers⟩
    obtain ⟨m0, m1, m2⟩ := arrival_facts _ r e hm
    have a := later_facts (cs "OK\r\n") r e (hothers _ (by simp))
    have b := later_facts (cs "ERROR") r e (hothers _ (by simp))
    have c := later_facts (cs "FAIL") r e (hothers _ (by simp))
    obtain ⟨s1, hc, hef, hff, hres⟩ := send_command_everyByte command r s e hz hl m2
      (fun j hj => by
        simp only [Exits, not_or]
        exact ⟨a j (by omega), b j (by omega), c j (by omega), m0 j hj⟩)
      (Or.inr (Or.inr (Or.inr m1)))
    have hwi : wait_iteration s1 = some { s1 with fail_flag := true } := by
      rw [wait_iteration_eq, hc, if_neg (a e (le_refl _)), if_neg (b e (le_refl _)),
        if_neg (c e (le_refl _)), if_pos m1]
    exact ⟨{ s1 with fail_flag := true }, _, by rw [hres, hwi]; rfl, hef, rfl⟩

theorem send_command_order_of_arrival_witness :
    ∃ s1 ret, esp8266_send_command (cs "AT\r\n") (everyByte (cs "ERROR\r\n\r\nOK\r\n")) startup
        = some (s1, ret) ∧ s1.error_flag = true ∧ s1.fail_flag = false :=
  (send_command_order_of_arrival (cs "AT\r\n") (cs "ERROR\r\n\r\nOK\r\n") startup
    (by decide) (by decide)).2.1 ⟨5, by decide, by decide⟩

/-! ## `esp8266_send_data` after an error, and `esp8266_clear` -/

/-- C12: when `error_flag` or `fail_flag` is set, `esp8266_send_data` returns "ERROR" for
every payload and every answer of the module, and the state it leaves is the state it was
called in: nothing is added to the transmit log, and the buffer, the write index and both
flags are unchanged. -/
theorem esp8266_send_data_after_error (data : List Nat) (schedule : List (List Nat))
    (s : Session) (h : s.error_flag = true ∨ s.fail_flag = true) :
    esp8266_send_data data schedule s = some (s, cs "ERROR")
    ∧ ∀ s1 r, esp8266_send_data data schedule s = some (s1, r) →
        s1.uart_tx = s.uart_tx ∧ s1.rx_buffer = s.rx_buffer
        ∧ s1.rx_buffer_index = s.rx_buffer_index ∧ s1.error_flag = s.error_flag
        ∧ s1.fail_flag = s.fail_flag := by
  have hb : (s.error_flag || s.fail_flag) = true := by
    rcases h with h | h <;> simp [h]
  have hres : esp8266_send_data data schedule s = some (s, cs "ERROR") := by
    unfold esp8266_send_data
    rw [if_pos hb]
    rfl
  refine ⟨hres, ?_⟩
  intro s1 r h1
  rw [hres] at h1
  simp only [Option.some.injEq, Prod.mk.injEq] at h1
  obtain ⟨rfl, -⟩ := h1
  exact ⟨rfl, rfl, rfl, rfl, rfl⟩

theorem esp8266_send_data_after_error_witness :
    esp8266_send_data (cs "GET / HTTP/1.1\r\n\r\n") [cs "CLOSED\r\n"]
        { startup with fail_flag := true }
      = some ({ startup with fail_flag := true }, cs "ERROR") :=
  (esp8266_send_data_after_error _ _ _ (Or.inr rfl)).1

theorem strstr_nil_of_ne (buffer marker : List Nat) (hb : cstr buffer = [])
    (hm : cstr marker ≠ []) : strstr buffer marker = none := by
  unfold strstr
  rw [hb]
  cases hc : cstr marker with
  | nil => exact absurd hc hm
  | cons a m => simp [findFirst, List.isPrefixOf]

/-- C14: for every prior state, after `esp8266_clear` the write index is 0, both flags are
false, each of the 4096 bytes of the buffer is zero, and `strstr` finds no non-empty marker
in the buffer, in particular none of "OK\r\n", "ERROR", "FAIL", "rst", "CLOSED". -/
theorem esp8266_clear_empty (s : Session) :
    (esp8266_clear s).rx_buffer_index = 0
    ∧ (esp8266_clear s).error_flag = false ∧ (esp8266_clear s).fail_flag = false
    ∧ (esp8266_clear s).rx_buffer.length = 4096
    ∧ (∀ i, i < 4096 → (esp8266_clear s).rx_buffer[i]? = some 0)
    ∧ (∀ marker, cstr marker ≠ [] → strstr (esp8266_clear s).rx_buffer marker = none)
    ∧ strstr (esp8266_clear s).rx_buffer (cs "OK\r\n") = none
    ∧ strstr (esp8266_clear s).rx_buffer (cs "ERROR") = none
    ∧ strstr (esp8266_clear s).rx_buffer (cs "FAIL") = none
    ∧ strstr (esp8266_clear s).rx_buffer (cs "rst") = none
    ∧ strstr (esp8266_clear s).rx_buffer (cs "CLOSED") = none := by
  have hbuf : (esp8266_clear s).rx_buffer = List.replicate 4096 0 := rfl
  have hc : cstr (esp8266_clear s).rx_buffer = [] := by
    rw [hbuf]
    exact cstr_append_zeros [] 4096 (by simp)
  have hall : ∀ marker, cstr marker ≠ [] → strstr (esp8266_clear s).rx_buffer marker = none :=
    fun marker hm => strstr_nil_of_ne _ marker hc hm
  refine ⟨rfl, rfl, rfl, by rw [hbuf, List.length_replicate], ?_, hall,
    hall _ (by decide), hall _ (by decide), hall _ (by decide), hall _ (by decide),
    hall _ (by decide)⟩
  intro i hi
  rw [hbuf, List.getElem?_replicate]
  simp [hi]

theorem esp8266_clear_empty_witness :
    strstr (esp8266_clear { startup with fail_flag := true, rx_buffer_index := 16,
                                         rx_buffer := cs "+CWJAP:2\r\nFAIL\r\n" }).rx_buffer
      (cs "FAIL\r\n") = none :=
  (esp8266_clear_empty _).2.2.2.2.2.1 (cs "FAIL\r\n") (by decide)

/-! ## The commands built by `esp8266_get_connection_command` and `esp8266_get_at_send_command` -/

theorem get_return_start_eq (s : Session) (command : List Nat)
    (h : canonical command = ESP8266_AT_START) :
    get_return s command = if s.error_flag || s.fail_flag then cs "ERROR" else cs "CONNECT" := by
  have hk : hash ESP8266_AT_START = 3889879756 := by decide
  unfold get_return
  simp only [h, hk]
  simp [ESP8266_AT_KEY, ESP8266_AT_GMR_KEY, ESP8266_AT_RST_KEY,
    ESP8266_AT_CWMODE_STATION_MODE_KEY, ESP8266_AT_CIPMUX_KEY, ESP8266_AT_CWQAP_KEY,
    ESP8266_AT_CWMODE_TEST_KEY, ESP8266_AT_CWJAP_TEST_KEY, ESP8266_AT_CWJAP_SET_KEY,
    ESP8266_AT_CIPMUX_TEST_KEY, ESP8266_AT_START_KEY, ESP8266_AT_ERROR, ESP8266_AT_CONNECT]

theorem get_return_send_eq (s : Session) (command : List Nat)
    (h : canonical command = ESP8266_AT_SEND) :
    get_return s command = if s.error_flag || s.fail_flag then cs "ERROR" else cs "SEND OK" := by
  have hk : hash ESP8266_AT_SEND = 898252904 := by decide
  unfold get_return
  simp only [h, hk]
  simp [ESP8266_AT_KEY, ESP8266_AT_GMR_KEY, ESP8266_AT_RST_KEY,
    ESP8266_AT_CWMODE_STATION_MODE_KEY, ESP8266_AT_CIPMUX_KEY, ESP8266_AT_CWQAP_KEY,
    ESP8266_AT_CWMODE_TEST_KEY, ESP8266_AT_CWJAP_TEST_KEY, ESP8266_AT_CWJAP_SET_KEY,
    ESP8266_AT_CIPMUX_TEST_KEY, ESP8266_AT_START_KEY, ESP8266_AT_SEND_KEY, ESP8266_AT_ERROR,
    ESP8266_AT_SEND_OK]

theorem prefix_of_prefix_append_cons (c : Nat) (b : List Nat) : ∀ (a m : List Nat),
    c ∉ m → m <+: a ++ c :: b → m <+: a := by
  intro a
  induction a with
  | nil =>
    intro m hc h
    cases m with
    | nil => exact List.nil_prefix
    | cons y m1 =>
      rw [List.nil_append, List.cons_prefix_cons] at h
      exact absurd (by simp [h.1]) hc
  | cons x a1 ih =>
    intro m hc h
    cases m with
    | nil => exact List.nil_prefix
    | cons y m1 =>
      rw [List.cons_append, List.cons_prefix_cons] at h
      rw [List.cons_prefix_cons]
      exact ⟨h.1, ih m1 (fun hm => hc (List.mem_cons_of_mem _ hm)) h.2⟩

theorem infix_of_infix_append_cons (m : List Nat) (c : Nat) (b : List Nat) (hc : c ∉ m) :
    ∀ a : List Nat, m <:+: a ++ c :: b → m <:+: a ∨ m <:+: b := by
  intro a
  induction a with
  | nil =>
    intro h
    rw [List.nil_append, List.infix_cons_iff] at h
    rcases h with h | h
    · exact Or.inl (prefix_of_prefix_append_cons c b [] m hc h).isInfix
    · exact Or.inr h
  | cons x a1 ih =>
    intro h
    rw [List.cons_append, List.infix_cons_iff] at h
    rcases h with h | h
    · exact Or.inl (prefix_of_prefix_append_cons c b (x :: a1) m hc h).isInfix
    · rcases ih h with h1 | h1
      · exact Or.inl (List.infix_cons h1)
      · exact Or.inr h1

theorem cstr_within (p : List Nat) : cstr p <:+: p :=
  (List.takeWhile_prefix _).isInfix

theorem canonical_connection_command (connection_type remote_ip remote_port : List Nat)
    (h1 : ¬ cs "AT+CWJAP=" <:+: cstr connection_type)
    (h2 : ¬ cs "AT+CWJAP=" <:+: cstr remote_ip)
    (h3 : ¬ cs "AT+CWJAP=" <:+: cstr remote_port) :
    canonical (esp8266_get_connection_command connection_type remote_ip remote_port)
      = ESP8266_AT_START := by
  have e : esp8266_get_connection_command connection_type remote_ip remote_port
      = cs "AT+CIPSTART=" ++ ([] ++ 34 :: (cstr connection_type ++ 34 :: ([] ++ 44 :: ([] ++ 34 ::
          (cstr remote_ip ++ 34 :: ([] ++ 44 :: (cstr remote_port ++ 13 :: [10]))))))) := by
    unfold esp8266_get_connection_command
    rw [show cstr ESP8266_AT_START = cs "AT+CIPSTART=" by decide,
      show cs "\"" = [34] by decide, show cs "\",\"" = [34, 44, 34] by decide,
      show cs "\"," = [34, 44] by decide, show cs "\r\n" = [13, 10] by decide]
    simp
  rw [e]
  apply canonical_start
  intro h
  have h := h.trans (cstr_within _)
  have n34 : (34 : Nat) ∉ cs "AT+CWJAP=" := by decide
  have n44 : (44 : Nat) ∉ cs "AT+CWJAP=" := by decide
  have n13 : (13 : Nat) ∉ cs "AT+CWJAP=" := by decide
  have hnil : ¬ cs "AT+CWJAP=" <:+: [] := by decide
  have h10 : ¬ cs "AT+CWJAP=" <:+: [10] := by decide
  rcases infix_of_infix_append_cons _ 34 _ n34 _ h with h | h
  · exact hnil h
  rcases infix_of_infix_append_cons _ 34 _ n34 _ h with h | h
  · exact h1 h
  rcases infix_of_infix_append_cons _ 44 _ n44 _ h with h | h
  · exact hnil h
  rcases infix_of_infix_append_cons _ 34 _ n34 _ h with h | h
  · exact hnil h
  rcases infix_of_infix_append_cons _ 34 _ n34 _ h with h | h
  · exact h2 h
  rcases infix_of_infix_append_cons _ 44 _ n44 _ h with h | h
  · exact hnil h
  rcases infix_of_infix_append_cons _ 13 _ n13 _ h with h | h
  · exact h3 h
  · exact h10 h

set_option maxRecDepth 100000 in
theorem canonical_at_send_command (len : Nat) :
    canonical (esp8266_get_at_send_command len) = ESP8266_AT_SEND := by
  have hall : ∀ k < 256, canonical (cstr ESP8266_AT_SEND ++ decimal k ++ cs "\r\n")
      = ESP8266_AT_SEND := by decide
  exact hall (len % 256) (Nat.mod_lt _ (by decide))

theorem firstExit_reaches (r : List Nat) (hex : Exits r) : ∀ (schedule : List (List Nat))
    (p : List Nat), p ++ schedule.flatten = r → ¬ Exits p → ∃ t, firstExit p schedule = some t := by
  intro schedule
  induction schedule with
  | nil =>
    intro p hp hn
    simp only [List.flatten_nil, List.append_nil] at hp
    subst hp
    exact absurd hex hn
  | cons c rest ih =>
    intro p hp hn
    simp only [List.flatten_cons, ← List.append_assoc] at hp
    by_cases hx : Exits (p ++ c)
    · exact ⟨p ++ c, by simp [firstExit, hx]⟩
    · obtain ⟨t, ht⟩ := ih (p ++ c) hp hx
      exact ⟨t, by simp [firstExit, hx, ht]⟩

/-- When the module answers "CONNECT\r\nOK\r\n", in whatever chunks, a command that
`get_return` takes for the start-connection command returns "CONNECT". -/
theorem send_command_connect (command : List Nat) (hcan : canonical command = ESP8266_AT_START)
    (schedule : List (List Nat)) (s0 : Session)
    (hsched : schedule.flatten = cs "CONNECT\r\nOK\r\n") :
    ∃ s1, esp8266_send_command command schedule s0 = some (s1, cs "CONNECT") := by
  obtain ⟨-, hexit⟩ := wait_loop_firstExit schedule
    (HAL_UART_Transmit command (strlen command) (esp8266_clear s0)) []
    (holds_after_clear _ _ _)
    (by rw [List.nil_append, hsched]; decide) (by rw [List.nil_append, hsched]; decide)
  obtain ⟨t, ht⟩ := firstExit_reaches (cs "CONNECT\r\nOK\r\n") (by decide) schedule []
    (by simpa using hsched) (by decide)
  obtain ⟨s1, -, fl, hc, hw, hx, hpre⟩ := hexit t ht
  rw [List.nil_append, hsched] at hpre
  have hno : ∀ m, ¬ m <:+: cs "CONNECT\r\nOK\r\n" → ¬ m <:+: t :=
    fun m hm h => hm (h.trans hpre.isInfix)
  have hok : cs "OK\r\n" <:+: t := by
    rcases hx with h | h | h | h
    · exact h
    · exact absurd h (hno _ (by decide))
    · exact absurd h (hno _ (by decide))
    · exact absurd h (hno _ (by decide))
  have hwi : wait_iteration s1 = some s1 := by
    rw [wait_iteration_eq, hc, if_pos hok]
  have he : s1.error_flag = false := fl.1.symm
  have hf : s1.fail_flag = false := fl.2.1.symm
  refine ⟨s1, ?_⟩
  unfold esp8266_send_command
  simp only [hw, hwi]
  rw [get_return_start_eq _ _ hcan]
  simp [he, hf]

/-- C11, against the claim: the command that `esp8266_get_connection_command` builds for
the remote host "AT+CWJAP=.example.com" makes `get_return`, with both flags clear, give
"WIFI CONNECTED" and not "CONNECT". -/
theorem get_return_connection_command_as_join :
    get_return startup
        (esp8266_get_connection_command (cs "TCP") (cs "AT+CWJAP=.example.com") (cs "80"))
      = cs "WIFI CONNECTED"
    ∧ startup.error_flag = false ∧ startup.fail_flag = false
    ∧ cs "WIFI CONNECTED" ≠ cs "CONNECT" := by
  decide

/-- C11, amended: for every session state, `get_return` gives "ERROR" when a flag is set and
"CONNECT" otherwise for every command built by `esp8266_get_connection_command` from
arguments none of which contains "AT+CWJAP=", and "ERROR" when a flag is set and "SEND OK"
otherwise for every command built by `esp8266_get_at_send_command`; replacing the buffer
content changes neither result. Sending AT+CIPSTART="TCP","host",80 and receiving
"CONNECT\r\nOK\r\n", in whatever chunks, returns "CONNECT". -/
theorem get_return_connection_and_send (s : Session) :
    (∀ connection_type remote_ip remote_port : List Nat,
      ¬ cs "AT+CWJAP=" <:+: cstr connection_type → ¬ cs "AT+CWJAP=" <:+: cstr remote_ip →
      ¬ cs "AT+CWJAP=" <:+: cstr remote_port →
      (s.error_flag = true ∨ s.fail_flag = true →
        get_return s (esp8266_get_connection_command connection_type remote_ip remote_port)
          = cs "ERROR")
      ∧ (s.error_flag = false ∧ s.fail_flag = false →
        get_return s (esp8266_get_connection_command connection_type remote_ip remote_port)
          = cs "CONNECT")
      ∧ (∀ buffer : List Nat,
        get_return { s with rx_buffer := buffer }
            (esp8266_get_connection_command connection_type remote_ip remote_port)
          = get_return s (esp8266_get_connection_command connection_type remote_ip remote_port)))
    ∧ (∀ len : Nat,
      (s.error_flag = true ∨ s.fail_flag = true →
        get_return s (esp8266_get_at_send_command len) = cs "ERROR")
      ∧ (s.error_flag = false ∧ s.fail_flag = false →
        get_return s (esp8266_get_at_send_command len) = cs "SEND OK")
      ∧ (∀ buffer : List Nat,
        get_return { s with rx_buffer := buffer } (esp8266_get_at_send_command len)
          = get_return s (esp8266_get_at_send_command len)))
    ∧ (∀ (schedule : List (List Nat)) (s0 : Session),
        schedule.flatten = cs "CONNECT\r\nOK\r\n" →
        (∃ s1, esp8266_send_command (cs "AT+CIPSTART=\"TCP\",\"host\",80") schedule s0
          = some (s1, cs "CONNECT"))
        ∧ (∃ s1, esp8266_send_command
            (esp8266_get_connection_command (cs "TCP") (cs "host") (cs "80")) schedule s0
          = some (s1, cs "CONNECT"))) := by
  refine ⟨?_, ?_, ?_⟩
  · intro connection_type remote_ip remote_port h1 h2 h3
    have hcan := canonical_connection_command connection_type remote_ip remote_port h1 h2 h3
    refine ⟨?_, ?_, ?_⟩
    · intro hflag
      rw [get_return_start_eq _ _ hcan]
      rcases hflag with h | h <;> simp [h]
    · rintro ⟨he, hf⟩
      rw [get_return_start_eq _ _ hcan]
      simp [he, hf]
    · intro buffer
      rw [get_return_start_eq _ _ hcan, get_return_start_eq _ _ hcan]
  · intro len
    have hcan := canonical_at_send_command len
    refine ⟨?_, ?_, ?_⟩
    · intro hflag
      rw [get_return_send_eq _ _ hcan]
      rcases hflag with h | h <;> simp [h]
    · rintro ⟨he, hf⟩
      rw [get_return_send_eq _ _ hcan]
      simp [he, hf]
    · intro buffer
      rw [get_return_send_eq _ _ hcan, get_return_send_eq _ _ hcan]
  · intro schedule s0 hsched
    exact ⟨send_command_connect _ (by decide) schedule s0 hsched,
      send_command_connect _ (by decide) schedule s0 hsched⟩

theorem get_return_connection_and_send_witness :
    ∃ s1, esp8266_send_command (esp8266_get_connection_command (cs "TCP") (cs "host") (cs "80"))
        [cs "CONNECT\r\n", cs "OK\r\n"] startup = some (s1, cs "CONNECT") :=
  ((get_return_connection_and_send startup).2.2 [cs "CONNECT\r\n", cs "OK\r\n"] startup
    (by decide)).2

/-! ## The data transfer path -/

theorem closed_loop_spec (schedule : List (List Nat)) : ∀ (s : Session) (p : List Nat),
    Holds s p → (∀ b ∈ p ++ schedule.flatten, b ≠ 0) → (p ++ schedule.flatten).length ≤ 256 →
    cs "CLOSED" <:+: p ++ schedule.flatten → ¬ cs "CLOSED" <:+: p →
    ∃ s1 t, closed_loop schedule s = some s1 ∧ Holds s1 t ∧ SameFlags s s1
      ∧ t <+: p ++ schedule.flatten ∧ cs "CLOSED" <:+: t := by
  induction schedule with
  | nil =>
    intro s p _ _ _ hc hn
    simp only [List.flatten_nil, List.append_nil] at hc
    exact absurd hc hn
  | cons c rest ih =>
    intro s p h hz hl hc hn
    simp only [List.flatten_cons, ← List.append_assoc] at hz hl hc
    have hl1 : p.length + c.length ≤ 256 := by
      simp only [List.length_append] at hl; omega
    obtain ⟨h1, f1⟩ := uart4_receive_holds c s p h hl1
    have hz1 : ∀ b ∈ p ++ c, b ≠ 0 := fun b hb => hz b (List.mem_append_left _ hb)
    have hc1 : cstr (uart4_receive c s).rx_buffer = p ++ c := holds_cstr _ _ h1 hz1
    have hiff : (strstr (uart4_receive c s).rx_buffer ESP8266_AT_CLOSED).isSome = true
        ↔ cs "CLOSED" <:+: p ++ c := by
      rw [strstr_isSome_iff, hc1, show cstr ESP8266_AT_CLOSED = cs "CLOSED" by decide]
    by_cases hx : cs "CLOSED" <:+: p ++ c
    · refine ⟨uart4_receive c s, p ++ c, ?_, h1, f1, ?_, hx⟩
      · simp only [closed_loop]
        rw [if_pos (hiff.mpr hx)]
      · simp [List.flatten_cons, ← List.append_assoc]
    · obtain ⟨s1, t, a, b, f2, d, e⟩ := ih (uart4_receive c s) (p ++ c) h1 hz hl hc hx
      refine ⟨s1, t, ?_, b, ⟨f1.1.trans f2.1, f1.2.1.trans f2.2.1, f1.2.2.trans f2.2.2⟩, ?_, e⟩
      · simp only [closed_loop]
        rw [if_neg (fun hh => hx (hiff.mp hh))]
        exact a
      · simpa [List.flatten_cons, ← List.append_assoc] using d

theorem take_strlen (data : List Nat) : data.take (strlen data) = cstr data :=
  (List.prefix_iff_eq_take.mp (List.takeWhile_prefix _)).symm

/-- C13, against the claim: with both flags clear and an answer that holds a zero byte
before "CLOSED", `esp8266_send_data` never leaves its wait loop, whether the answer is
seen at once or byte by byte. -/
theorem esp8266_send_data_zero_byte :
    startup.error_flag = false ∧ startup.fail_flag = false
    ∧ cs "CLOSED" <:+: cs "+IPD,3:a" ++ [0] ++ cs "b\r\nCLOSED\r\n"
    ∧ esp8266_send_data (cs "GET / HTTP/1.1\r\n\r\n")
        [cs "+IPD,3:a" ++ [0] ++ cs "b\r\nCLOSED\r\n"] startup = none
    ∧ esp8266_send_data (cs "GET / HTTP/1.1\r\n\r\n")
        (everyByte (cs "+IPD,3:a" ++ [0] ++ cs "b\r\nCLOSED\r\n")) startup = none := by
  refine ⟨rfl, rfl, by decide, by rfl, by rfl⟩

/-- C13, amended: when neither flag is set, for every payload and every answer of the
module that holds no zero byte, has at most 256 bytes and contains "CLOSED", delivered in
whatever chunks, `esp8266_send_data` returns "CLOSED", adds exactly the payload bytes to
the transmit log, leaves both flags false, and leaves the buffer holding, from position 0,
the bytes received up to the first observation that contains "CLOSED". -/
theorem esp8266_send_data_closed (data : List Nat) (schedule : List (List Nat)) (s : Session)
    (he : s.error_flag = false) (hf : s.fail_flag = false)
    (hz : ∀ b ∈ schedule.flatten, b ≠ 0) (hl : schedule.flatten.length ≤ 256)
    (hc : cs "CLOSED" <:+: schedule.flatten) :
    ∃ s1 t, esp8266_send_data data schedule s = some (s1, cs "CLOSED")
      ∧ s1.uart_tx = s.uart_tx ++ cstr data
      ∧ s1.error_flag = false ∧ s1.fail_flag = false
      ∧ Holds s1 t ∧ t <+: schedule.flatten ∧ cs "CLOSED" <:+: t := by
  have hb : ¬ (s.error_flag || s.fail_flag) = true := by simp [he, hf]
  obtain ⟨s1, t, h1, h2, h3, h4, h5⟩ := closed_loop_spec schedule
    (HAL_UART_Transmit data (strlen data)
      { s with rx_buffer_index := 0, rx_buffer := List.replicate RX_BUFFER_SIZE 0 }) []
    ⟨rfl, rfl⟩ (by simpa using hz) (by simpa using hl) (by simpa using hc) (by decide)
  refine ⟨s1, t, ?_, ?_, ?_, ?_, h2, by simpa using h4, h5⟩
  · unfold esp8266_send_data
    rw [if_neg hb]
    simp only [h1]
    rfl
  · rw [← h3.2.2, ← take_strlen]
    rfl
  · rw [← h3.1]
    exact he
  · rw [← h3.2.1]
    exact hf

theorem esp8266_send_data_closed_witness :
    ∃ s1 t, esp8266_send_data (cs "POST / HTTP/1.1\r\n\r\n")
        [cs "\r\nSEND OK\r\n", cs "+IPD,5:ERROR", cs "CLOSED\r\n"] startup
        = some (s1, cs "CLOSED")
      ∧ s1.uart_tx = startup.uart_tx ++ cstr (cs "POST / HTTP/1.1\r\n\r\n")
      ∧ s1.error_flag = false ∧ s1.fail_flag = false
      ∧ Holds s1 t
      ∧ t <+: [cs "\r\nSEND OK\r\n", cs "+IPD,5:ERROR", cs "CLOSED\r\n"].flatten
      ∧ cs "CLOSED" <:+: t :=
  esp8266_send_data_closed _ _ startup rfl rfl (by decide) (by decide) (by decide)

/-! ## `esp8266_send_command` does not depend on the prior state -/

theorem agree_uart4_byte (s s' : Session) (b : Nat) (h : Agree s s') :
    Agree (uart4_byte s b) (uart4_byte s' b) := by
  obtain ⟨h1, h2, h3, h4⟩ := h
  refine ⟨?_, h2, h3, ?_⟩
  · show (s.rx_buffer_index + 1) % 256 = (s'.rx_buffer_index + 1) % 256
    rw [h1]
  · show s.rx_buffer.set s.rx_buffer_index b = s'.rx_buffer.set s'.rx_buffer_index b
    rw [h1, h4]

theorem agree_uart4_receive (chunk : List Nat) : ∀ s s' : Session, Agree s s' →
    Agree (uart4_receive chunk s) (uart4_receive chunk s') := by
  induction chunk with
  | nil => intro s s' h; exact h
  | cons b rest ih =>
    intro s s' h
    exact ih _ _ (agree_uart4_byte s s' b h)

theorem agree_wait_iteration (s s' : Session) (h : Agree s s') :
    (wait_iteration s = none ∧ wait_iteration s' = none)
    ∨ ∃ a a', wait_iteration s = some a ∧ wait_iteration s' = some a' ∧ Agree a a' := by
  cases s
  cases s'
  simp only [Agree] at h
  obtain ⟨rfl, rfl, rfl, rfl⟩ := h
  rw [wait_iteration_eq, wait_iteration_eq]
  simp only
  split_ifs
  · exact Or.inr ⟨_, _, rfl, rfl, rfl, rfl, rfl, rfl⟩
  · exact Or.inr ⟨_, _, rfl, rfl, rfl, rfl, rfl, rfl⟩
  · exact Or.inr ⟨_, _, rfl, rfl, rfl, rfl, rfl, rfl⟩
  · exact Or.inr ⟨_, _, rfl, rfl, rfl, rfl, rfl, rfl⟩
  · exact Or.inl ⟨rfl, rfl⟩

theorem agree_wait_loop (schedule : List (List Nat)) : ∀ s s' : Session, Agree s s' →
    (wait_loop schedule s = none ∧ wait_loop schedule s' = none)
    ∨ ∃ a a', wait_loop schedule s = some a ∧ wait_loop schedule s' = some a' ∧ Agree a a' := by
  induction schedule with
  | nil => intro s s' _; exact Or.inl ⟨rfl, rfl⟩
  | cons c rest ih =>
    intro s s' h
    have hr := agree_uart4_receive c s s' h
    rcases agree_wait_iteration _ _ hr with ⟨n1, n2⟩ | ⟨a, a', e1, e2, ha⟩
    · simp only [wait_loop, n1, n2]
      exact ih _ _ hr
    · simp only [wait_loop, e1, e2]
      exact Or.inr ⟨a, a', rfl, rfl, ha⟩

theorem agree_get_return (s s' : Session) (command : List Nat) (h : Agree s s') :
    get_return s command = get_return s' command := by
  obtain ⟨-, h2, h3, h4⟩ := h
  unfold get_return evaluate
  rw [h2, h3, h4]

theorem send_command_eq_map (command : List Nat) (schedule : List (List Nat)) (s : Session) :
    esp8266_send_command command schedule s
      = (wait_loop schedule (HAL_UART_Transmit command (strlen command) (esp8266_clear s))).map
          (fun s3 => (s3, get_return s3 command)) := by
  unfold esp8266_send_command
  simp only
  split <;> rename_i h <;> rw [h] <;> rfl

theorem agree_send_command (command : List Nat) (schedule : List (List Nat)) (s s' : Session) :
    (esp8266_send_command command schedule s = none
      ∧ esp8266_send_command command schedule s' = none)
    ∨ ∃ a a' r, esp8266_send_command command schedule s = some (a, r)
        ∧ esp8266_send_command command schedule s' = some (a', r) ∧ Agree a a' := by
  have h0 : Agree (HAL_UART_Transmit command (strlen command) (esp8266_clear s))
      (HAL_UART_Transmit command (strlen command) (esp8266_clear s')) := ⟨rfl, rfl, rfl, rfl⟩
  rw [send_command_eq_map, send_command_eq_map]
  rcases agree_wait_loop schedule _ _ h0 with ⟨n1, n2⟩ | ⟨a, a', e1, e2, ha⟩
  · rw [n1, n2]
    exact Or.inl ⟨rfl, rfl⟩
  · rw [e1, e2]
    refine Or.inr ⟨a, a', get_return a command, rfl, ?_, ha⟩
    rw [agree_get_return a a' command ha]
    rfl

/-- C15, against the claim: from the same prior state, the same command "AT+CWMODE=1\r\n"
and the same response stream "\r\nFAIL\r\n\r\nOK\r\n" give "OK" with both flags clear when
the stream has arrived in full at the first look of the wait loop, and "ERROR" with
`fail_flag` set when the loop looks once after "\r\nFAIL\r\n": the outcome is not a function
of the command text and the response stream only. -/
theorem send_command_depends_on_schedule :
    [cs "\r\nFAIL\r\n\r\nOK\r\n"].flatten = [cs "\r\nFAIL\r\n", cs "\r\nOK\r\n"].flatten
    ∧ (esp8266_send_command (cs "AT+CWMODE=1\r\n") [cs "\r\nFAIL\r\n\r\nOK\r\n"] startup).map
        (fun x => (x.2, x.1.error_flag, x.1.fail_flag)) = some (cs "OK", false, false)
    ∧ (esp8266_send_command (cs "AT+CWMODE=1\r\n") [cs "\r\nFAIL\r\n", cs "\r\nOK\r\n"]
        startup).map
        (fun x => (x.2, x.1.error_flag, x.1.fail_flag)) = some (cs "ERROR", false, true)
    ∧ cs "OK" ≠ cs "ERROR" := by
  decide

/-- C15, amended: for every command, every response stream delivered on a given polling
schedule (the chunks in which the wait loop gets to see it) and every two prior session
states, `esp8266_send_command` gives the same outcome and the same final flags (or returns
in neither case); so a second call with the same command, stream and schedule, made in the
state the first call left, gives the same outcome and flags again. -/
theorem esp8266_send_command_prior_state (command : List Nat) (schedule : List (List Nat))
    (s s' : Session) :
    (esp8266_send_command command schedule s).map
        (fun x => (x.2, x.1.error_flag, x.1.fail_flag))
      = (esp8266_send_command command schedule s').map
        (fun x => (x.2, x.1.error_flag, x.1.fail_flag))
    ∧ ∀ s1 r, esp8266_send_command command schedule s = some (s1, r) →
        ∃ s2, esp8266_send_command command schedule s1 = some (s2, r)
          ∧ s2.error_flag = s1.error_flag ∧ s2.fail_flag = s1.fail_flag := by
  refine ⟨?_, ?_⟩
  · rcases agree_send_command command schedule s s' with ⟨n1, n2⟩ | ⟨a, a', r, e1, e2, ha⟩
    · rw [n1, n2]
    · rw [e1, e2]
      simp [ha.2.1, ha.2.2.1]
  · intro s1 r h1
    rcases agree_send_command command schedule s s1 with ⟨n1, -⟩ | ⟨a, a', r', e1, e2, ha⟩
    · rw [n1] at h1
      exact absurd h1 (by simp)
    · rw [e1] at h1
      simp only [Option.some.injEq, Prod.mk.injEq] at h1
      obtain ⟨rfl, rfl⟩ := h1
      exact ⟨a', e2, ha.2.1.symm, ha.2.2.1.symm⟩

theorem esp8266_send_command_prior_state_witness :
    ∃ s2, esp8266_send_command (cs "AT+CWMODE=1\r\n") [cs "\r\nERR", cs "OR\r\n"]
        { startup with error_flag := true, rx_buffer_index := 9,
                       uart_tx := cs "AT+CWMODE=1\r\n",
                       rx_buffer := cs "\r\nERROR\r\n" ++ List.replicate 4087 0,
                       rx_variable := 10 }
        = some (s2, cs "ERROR")
      ∧ s2.error_flag = true ∧ s2.fail_flag = false :=
  (esp8266_send_command_prior_state (cs "AT+CWMODE=1\r\n") [cs "\r\nERR", cs "OR\r\n"]
    startup startup).2 _ _ rfl

/-! ## `esp8266_init` -/

theorem cstr_zero_free (p : List Nat) : ∀ b ∈ cstr p, b ≠ 0 := by
  intro b hb
  have := List.mem_takeWhile_imp hb
  simpa using this

theorem countingBytes_length (n : Nat) : (countingBytes n).length = n := by
  simp [countingBytes]

theorem countingBytes_succ (n : Nat) : countingBytes (n + 1) = countingBytes n ++ [n % 255 + 1] := by
  simp [countingBytes, List.range_succ]

theorem countingBytes_get (n i : Nat) (h : i < n) : (countingBytes n)[i]? = some (i % 255 + 1) := by
  simp [countingBytes, List.getElem?_map, List.getElem?_range h]

/-- The receiver after a clear, 256 bytes `p` and one more byte `b`. -/
theorem receive_after_256 (p : List Nat) (b : Nat) (s0 : Session) (hl : p.length = 256) :
    (uart4_receive p (esp8266_clear s0)).rx_buffer_index = 0
    ∧ (uart4_receive (p ++ [b]) (esp8266_clear s0)).rx_buffer_index = 1
    ∧ (uart4_receive (p ++ [b]) (esp8266_clear s0)).rx_buffer[0]? = some b
    ∧ (uart4_receive (p ++ [b]) (esp8266_clear s0)).rx_buffer[256]? = some 0 := by
  obtain ⟨⟨hbuf, hidx⟩, -⟩ := uart4_receive_holds p (esp8266_clear s0) []
    ⟨rfl, rfl⟩ (by rw [hl]; exact le_refl _)
  rw [List.nil_append, hl] at hbuf hidx
  have hidx0 : (uart4_receive p (esp8266_clear s0)).rx_buffer_index = 0 := hidx
  have hstep : uart4_receive (p ++ [b]) (esp8266_clear s0)
      = uart4_byte (uart4_receive p (esp8266_clear s0)) b := by
    simp [uart4_receive, List.foldl_append]
  generalize uart4_receive p (esp8266_clear s0) = s1 at hbuf hidx0 hstep
  have hbuf2 : (uart4_receive (p ++ [b]) (esp8266_clear s0)).rx_buffer
      = (p ++ List.replicate (RX_BUFFER_SIZE - 256) 0).set 0 b := by
    rw [hstep, ← hbuf, ← hidx0]
    rfl
  have hidx2 : (uart4_receive (p ++ [b]) (esp8266_clear s0)).rx_buffer_index = 1 := by
    rw [hstep]
    show (s1.rx_buffer_index + 1) % 256 = 1
    rw [hidx0]
  refine ⟨hidx0, hidx2, ?_, ?_⟩
  · rw [hbuf2, List.getElem?_set_self (by rw [List.length_append, hl]; omega)]
  · rw [hbuf2, List.getElem?_set_ne (by omega),
      List.getElem?_append_right (by rw [hl]), hl, List.getElem?_replicate]
    simp [RX_BUFFER_SIZE]

/-- C17, as the code behaves: after `esp8266_clear`, 256 bytes delivered by UART4 leave the
write index at 0 and not at 256; with a 257th byte the index is 1, position 0 of the buffer
holds the 257th byte in place of the first, and position 256 still holds 0. -/
theorem receiver_wraps_at_256 :
    (uart4_receive (countingBytes 256) (esp8266_clear startup)).rx_buffer_index = 0
    ∧ (uart4_receive (countingBytes 257) (esp8266_clear startup)).rx_buffer_index = 1
    ∧ (countingBytes 257)[0]? = some 1 ∧ (countingBytes 257)[256]? = some 2
    ∧ (uart4_receive (countingBytes 257) (esp8266_clear startup)).rx_buffer[0]? = some 2
    ∧ (uart4_receive (countingBytes 257) (esp8266_clear startup)).rx_buffer[256]? = some 0 := by
  obtain ⟨h1, h2, h3, h4⟩ := receive_after_256 (countingBytes 256) 2 startup
    (countingBytes_length 256)
  have hsplit : countingBytes 256 ++ [2] = countingBytes 257 := (countingBytes_succ 256).symm
  rw [hsplit] at h2 h3 h4
  exact ⟨h1, h2, countingBytes_get 257 0 (by omega), countingBytes_get 257 256 (by omega),
    h3, h4⟩

theorem inv_callback (fromUART4 : Bool) (s : Session) (h : IndexInv s) :
    IndexInv (HAL_UART_RxCpltCallback fromUART4 s) := by
  unfold HAL_UART_RxCpltCallback
  cases fromUART4 with
  | false => exact h
  | true =>
    refine ⟨Nat.mod_lt _ (by decide), ?_⟩
    show (s.rx_buffer.set s.rx_buffer_index s.rx_variable).length = RX_BUFFER_SIZE
    rw [List.length_set]
    exact h.2

theorem inv_uart4_receive (chunk : List Nat) : ∀ s : Session, IndexInv s →
    IndexInv (uart4_receive chunk s) := by
  induction chunk with
  | nil => intro s h; exact h
  | cons b rest ih =>
    intro s h
    exact ih _ (inv_callback true { s with rx_variable := b } h)

theorem inv_wait_iteration (s a : Session) (h : wait_iteration s = some a) (hi : IndexInv s) :
    IndexInv a := by
  unfold wait_iteration at h
  split_ifs at h <;> simp only [Option.some.injEq] at h <;> subst h <;> exact hi

theorem inv_wait_loop (schedule : List (List Nat)) : ∀ s a : Session,
    wait_loop schedule s = some a → IndexInv s → IndexInv a := by
  induction schedule with
  | nil => intro s a h; simp [wait_loop] at h
  | cons c rest ih =>
    intro s a h hi
    simp only [wait_loop] at h
    cases hw : wait_iteration (uart4_receive c s) with
    | some a1 =>
      rw [hw] at h
      simp only [Option.some.injEq] at h
      subst h
      exact inv_wait_iteration _ _ hw (inv_uart4_receive c s hi)
    | none =>
      rw [hw] at h
      exact ih _ _ h (inv_uart4_receive c s hi)

theorem inv_closed_loop (schedule : List (List Nat)) : ∀ s a : Session,
    closed_loop schedule s = some a → IndexInv s → IndexInv a := by
  induction schedule with
  | nil => intro s a h; simp [closed_loop] at h
  | cons c rest ih =>
    intro s a h hi
    simp only [closed_loop] at h
    split_ifs at h
    · simp only [Option.some.injEq] at h
      subst h
      exact inv_uart4_receive c s hi
    · exact ih _ _ h (inv_uart4_receive c s hi)

theorem inv_step (step : Step) (s a : Session) (h : step.apply s = some a) (hi : IndexInv s) :
    IndexInv a := by
  cases step with
  | rx fromUART4 byte =>
    simp only [Step.apply, Option.some.injEq] at h
    subst h
    exact inv_callback fromUART4 _ hi
  | clear =>
    simp only [Step.apply, Option.some.injEq] at h
    subst h
    exact ⟨(by norm_num : (0 : Nat) < 256), List.length_replicate _ _⟩
  | send_command command schedule =>
    simp only [Step.apply, send_command_eq_map, Option.map_map] at h
    cases hw : wait_loop schedule
        (HAL_UART_Transmit command (strlen command) (esp8266_clear s)) with
    | none => rw [hw] at h; simp at h
    | some a1 =>
      rw [hw] at h
      simp only [Option.map_some', Function.comp_apply, Option.some.injEq] at h
      subst h
      exact inv_wait_loop _ _ _ hw ⟨(by norm_num : (0 : Nat) < 256), List.length_replicate _ _⟩
  | send_data data schedule =>
    simp only [Step.apply, esp8266_send_data] at h
    split_ifs at h
    · simp only [Option.map_some', Option.some.injEq] at h
      subst h
      exact hi
    · cases hw : closed_loop schedule (HAL_UART_Transmit data (strlen data)
          { s with rx_buffer_index := 0, rx_buffer := List.replicate RX_BUFFER_SIZE 0 }) with
      | none => rw [hw] at h; simp at h
      | some a1 =>
        rw [hw] at h
        simp only [Option.map_some', Option.some.injEq] at h
        subst h
        exact inv_closed_loop _ _ _ hw
          ⟨(by norm_num : (0 : Nat) < 256), List.length_replicate _ _⟩

theorem inv_run (steps : List Step) : ∀ s a : Session, run steps s = some a → IndexInv s →
    IndexInv a := by
  induction steps with
  | nil =>
    intro s a h hi
    simp only [run, Option.some.injEq] at h
    subst h
    exact hi
  | cons step rest ih =>
    intro s a h hi
    simp only [run] at h
    cases hs : step.apply s with
    | none => rw [hs] at h; simp at h
    | some s1 =>
      rw [hs] at h
      exact ih s1 a h (inv_step step s s1 hs hi)

/-- C18: in every state reached from start-up by receive interrupts and calls of
`esp8266_clear`, `esp8266_send_command` and `esp8266_send_data`, in any order and with any
received bytes, the write index is below `RX_BUFFER_SIZE` = 4096 and below the length of
the buffer, so the next byte the receiver stores lands inside the buffer, at the index. -/
theorem rx_buffer_index_in_range (steps : List Step) (s : Session)
    (h : run steps startup = some s) :
    s.rx_buffer_index < RX_BUFFER_SIZE ∧ RX_BUFFER_SIZE = 4096
    ∧ s.rx_buffer_index < s.rx_buffer.length
    ∧ ∀ b : Nat, (uart4_byte s b).rx_buffer.length = s.rx_buffer.length
        ∧ (uart4_byte s b).rx_buffer[s.rx_buffer_index]? = some b := by
  have hi : IndexInv s := inv_run steps startup s h ⟨by decide, List.length_replicate _ _⟩
  obtain ⟨h1, h2⟩ := hi
  have h3 : s.rx_buffer_index < s.rx_buffer.length := by
    rw [h2]
    exact lt_trans h1 (by decide)
  refine ⟨lt_trans h1 (by decide), rfl, h3, ?_⟩
  intro b
  have hb : (uart4_byte s b).rx_buffer = s.rx_buffer.set s.rx_buffer_index b := rfl
  rw [hb, List.length_set]
  refine ⟨rfl, ?_⟩
  rw [List.getElem?_set_self h3]

theorem rx_buffer_index_in_range_witness :
    ∃ s, run [Step.rx true 10, Step.send_command (cs "AT\r\n") [cs "\r\nOK\r\n"],
              Step.send_data (cs "ping") [cs "CLOSED\r\n"], Step.clear, Step.rx true 65]
          startup = some s
      ∧ s.rx_buffer_index < RX_BUFFER_SIZE :=
  ⟨_, rfl, (rx_buffer_index_in_range
    [Step.rx true 10, Step.send_command (cs "AT\r\n") [cs "\r\nOK\r\n"],
     Step.send_data (cs "ping") [cs "CLOSED\r\n"], Step.clear, Step.rx true 65] _ rfl).1⟩

/-! ## The length of the HTTP request -/

theorem http_get_request_text (http_type uri host : List Nat) :
    (esp8266_http_get_request http_type uri host).1
      = cstr http_type ++ cstr uri ++ cs " HTTP/1.1\r\nHost: " ++ cstr host
        ++ cs "\r\nConnection: close\r\n\r\n"
    ∧ (esp8266_http_get_request http_type uri host).2
      = (esp8266_http_get_request http_type uri host).1.length % 256 := by
  have e1 : cstr HTTP_VERSION = cs "HTTP/1.1" := by decide
  have e2 : cstr HTTP_HOST = cs "Host: " := by decide
  have e3 : cstr HTTP_CONNECTION_CLOSE = cs "Connection: close" := by decide
  have e4 : cs " HTTP/1.1\r\nHost: " = cs " " ++ cs "HTTP/1.1" ++ cs "\r\n" ++ cs "Host: " := by
    decide
  have e5 : cs "\r\nConnection: close\r\n\r\n"
      = cs "\r\n" ++ cs "Connection: close" ++ cs "\r\n\r\n" := by decide
  have htext : (esp8266_http_get_request http_type uri host).1
      = cstr http_type ++ cstr uri ++ cs " HTTP/1.1\r\nHost: " ++ cstr host
        ++ cs "\r\nConnection: close\r\n\r\n" := by
    unfold esp8266_http_get_request
    simp only [e1, e2, e3, e4, e5, List.append_assoc]
  refine ⟨htext, ?_⟩
  have hz : ∀ b ∈ (esp8266_http_get_request http_type uri host).1, b ≠ 0 := by
    rw [htext]
    intro b hb
    simp only [List.mem_append] at hb
    rcases hb with (((hb | hb) | hb) | hb) | hb
    · exact cstr_zero_free _ b hb
    · exact cstr_zero_free _ b hb
    · revert b; decide
    · exact cstr_zero_free _ b hb
    · revert b; decide
  have hc : cstr (esp8266_http_get_request http_type uri host).1
      = (esp8266_http_get_request http_type uri host).1 := by
    have := cstr_append_zeros _ 0 hz
    simpa using this
  show strlen (esp8266_http_get_request http_type uri host).1 % 256 = _
  unfold strlen
  rw [hc]

set_option maxRecDepth 20000 in
/-- C19, as the code behaves: for the 250-byte URI "aa..a" and the host "example.com" the
GET request has 305 bytes, but `esp8266_http_get_request` returns 49 (305 modulo 256, the
return type being `uint8_t`), and the command built from it is "AT+CIPSEND=49\r\n". -/
theorem http_get_request_length_truncated :
    (esp8266_http_get_request HTTP_GET (List.replicate 250 97) (cs "example.com")).1.length = 305
    ∧ strlen (esp8266_http_get_request HTTP_GET (List.replicate 250 97) (cs "example.com")).1
        = 305
    ∧ (esp8266_http_get_request HTTP_GET (List.replicate 250 97) (cs "example.com")).2 = 49
    ∧ esp8266_get_at_send_command
        (esp8266_http_get_request HTTP_GET (List.replicate 250 97) (cs "example.com")).2
      = cs "AT+CIPSEND=49\r\n" := by
  decide

/-! ## What the scan of the buffer sees -/

theorem cstr_append_replicate_zero (n : Nat) : ∀ p : List Nat,
    cstr (p ++ List.replicate n 0) = cstr p := by
  intro p
  induction p with
  | nil => exact cstr_append_zeros [] n (by simp)
  | cons a rest ih =>
    unfold cstr at ih ⊢
    by_cases ha : a = 0
    · simp [List.takeWhile_cons, ha]
    · simp [List.takeWhile_cons, ha, ih]

/-- C20, against the claim: after a reset and the eleven received bytes "OK", 0, "ERROR\r\n"
the marker "ERROR" occurs in the received bytes, yet `strstr` does not find it in the
buffer, and `esp8266_send_command` never leaves its wait loop. -/
theorem strstr_stops_at_zero_byte :
    cs "ERROR" <:+: cs "OK" ++ [0] ++ cs "ERROR\r\n"
    ∧ strstr (uart4_receive (cs "OK" ++ [0] ++ cs "ERROR\r\n") (esp8266_clear startup)).rx_buffer
        (cs "ERROR") = none
    ∧ esp8266_send_command (cs "AT\r\n") [cs "OK" ++ [0] ++ cs "ERROR\r\n"] startup = none := by
  refine ⟨by decide, by rfl, by rfl⟩

/-- C20, amended: for every sequence of at most 256 bytes received since the buffer was
reset (by `esp8266_clear`, or by the reset at the head of `esp8266_send_data`) and every
marker, `strstr` over `rx_buffer` finds the marker if and only if it occurs as a contiguous
substring of the received bytes that precede the first zero byte; when no received byte is
zero, if and only if it occurs as a contiguous substring of the received bytes. -/
theorem strstr_rx_buffer (bytes marker : List Nat) (s0 : Session) (hl : bytes.length ≤ 256) :
    ((strstr (uart4_receive bytes (esp8266_clear s0)).rx_buffer marker).isSome = true
      ↔ cstr marker <:+: cstr bytes)
    ∧ ((strstr (uart4_receive bytes
          { s0 with rx_buffer_index := 0, rx_buffer := List.replicate RX_BUFFER_SIZE 0 }).rx_buffer
          marker).isSome = true
      ↔ cstr marker <:+: cstr bytes)
    ∧ ((∀ b ∈ bytes, b ≠ 0) →
      ((strstr (uart4_receive bytes (esp8266_clear s0)).rx_buffer marker).isSome = true
        ↔ cstr marker <:+: bytes)) := by
  obtain ⟨⟨hb1, -⟩, -⟩ := uart4_receive_holds bytes (esp8266_clear s0) [] ⟨rfl, rfl⟩
    (by simpa using hl)
  obtain ⟨⟨hb2, -⟩, -⟩ := uart4_receive_holds bytes
    { s0 with rx_buffer_index := 0, rx_buffer := List.replicate RX_BUFFER_SIZE 0 } []
    ⟨rfl, rfl⟩ (by simpa using hl)
  rw [List.nil_append] at hb1 hb2
  have h1 : (strstr (uart4_receive bytes (esp8266_clear s0)).rx_buffer marker).isSome = true
      ↔ cstr marker <:+: cstr bytes := by
    rw [strstr_isSome_iff, hb1, cstr_append_replicate_zero]
  refine ⟨h1, ?_, ?_⟩
  · rw [strstr_isSome_iff, hb2, cstr_append_replicate_zero]
  · intro hz
    have hc : cstr bytes = bytes := by
      have := cstr_append_zeros bytes 0 hz
      simpa using this
    rw [h1, hc]

theorem strstr_rx_buffer_witness :
    (strstr (uart4_receive (cs "+CWJAP:2\r\nFAIL\r\n") (esp8266_clear startup)).rx_buffer
        (cs "CWJAP:2")).isSome = true
      ↔ cstr (cs "CWJAP:2") <:+: cs "+CWJAP:2\r\nFAIL\r\n" :=
  (strstr_rx_buffer (cs "+CWJAP:2\r\nFAIL\r\n") (cs "CWJAP:2") startup (by decide)).2.2
    (by decide)

/-! ## The order of the tests inside one observation -/

theorem uart4_receive_flags (chunk : List Nat) : ∀ s : Session,
    (uart4_receive chunk s).error_flag = s.error_flag
    ∧ (uart4_receive chunk s).fail_flag = s.fail_flag := by
  induction chunk with
  | nil => intro s; exact ⟨rfl, rfl⟩
  | cons b rest ih =>
    intro s
    have h : uart4_receive (b :: rest) s = uart4_receive rest (uart4_byte s b) := rfl
    rw [h]
    exact ih (uart4_byte s b)

/-- C21: one evaluation of the wait loop of `esp8266_send_command` tests the markers in the
order "OK\r\n", "ERROR", "FAIL", "rst". On every buffer in which `strstr` finds "OK\r\n" the
loop is left with the state unchanged, whatever else the buffer contains; on every buffer
without "OK\r\n" that contains "ERROR" (and possibly "FAIL") only `error_flag` is set. So
when the first observation after the clear contains "OK\r\n", the function returns with
both flags false, and when it contains "ERROR" and "FAIL" but not "OK\r\n", it returns with
`error_flag` true and `fail_flag` false. -/
theorem wait_loop_fixed_order (command chunk : List Nat) (rest : List (List Nat))
    (s0 : Session) :
    (∀ s : Session, cs "OK\r\n" <:+: cstr s.rx_buffer → wait_iteration s = some s)
    ∧ (∀ s : Session, ¬ cs "OK\r\n" <:+: cstr s.rx_buffer → cs "ERROR" <:+: cstr s.rx_buffer →
        wait_iteration s = some { s with error_flag := true })
    ∧ (cs "OK\r\n" <:+: cstr (firstObservation command chunk s0).rx_buffer →
        ∃ s1 r, esp8266_send_command command (chunk :: rest) s0 = some (s1, r)
          ∧ s1.error_flag = false ∧ s1.fail_flag = false
          ∧ s1.rx_buffer = (firstObservation command chunk s0).rx_buffer)
    ∧ (¬ cs "OK\r\n" <:+: cstr (firstObservation command chunk s0).rx_buffer →
        cs "ERROR" <:+: cstr (firstObservation command chunk s0).rx_buffer →
        cs "FAIL" <:+: cstr (firstObservation command chunk s0).rx_buffer →
        ∃ s1 r, esp8266_send_command command (chunk :: rest) s0 = some (s1, r)
          ∧ s1.error_flag = true ∧ s1.fail_flag = false
          ∧ s1.rx_buffer = (firstObservation command chunk s0).rx_buffer) := by
  have hflags := uart4_receive_flags chunk
    (HAL_UART_Transmit command (strlen command) (esp8266_clear s0))
  have he : (firstObservation command chunk s0).error_flag = false := hflags.1
  have hf : (firstObservation command chunk s0).fail_flag = false := hflags.2
  have hloop : wait_loop (chunk :: rest)
      (HAL_UART_Transmit command (strlen command) (esp8266_clear s0))
      = match wait_iteration (firstObservation command chunk s0) with
        | some s1 => some s1
        | none => wait_loop rest (firstObservation command chunk s0) := rfl
  refine ⟨?_, ?_, ?_, ?_⟩
  · intro s h
    rw [wait_iteration_eq, if_pos h]
  · intro s h1 h2
    rw [wait_iteration_eq, if_neg h1, if_pos h2]
  · intro h
    have hwi : wait_iteration (firstObservation command chunk s0)
        = some (firstObservation command chunk s0) := by
      rw [wait_iteration_eq, if_pos h]
    refine ⟨firstObservation command chunk s0,
      get_return (firstObservation command chunk s0) command, ?_, he, hf, rfl⟩
    rw [send_command_eq_map, hloop, hwi]
    rfl
  · intro h1 h2 _
    have hwi : wait_iteration (firstObservation command chunk s0)
        = some { firstObservation command chunk s0 with error_flag := true } := by
      rw [wait_iteration_eq, if_neg h1, if_pos h2]
    refine ⟨{ firstObservation command chunk s0 with error_flag := true },
      get_return { firstObservation command chunk s0 with error_flag := true } command,
      ?_, rfl, hf, rfl⟩
    rw [send_command_eq_map, hloop, hwi]
    rfl

theorem wait_loop_fixed_order_witness :
    ∃ s1 r, esp8266_send_command (cs "AT+CWQAP\r\n")
        [cs "rst cause:2\r\nFAIL\r\nERROR\r\n\r\nOK\r\n", cs "ready\r\n"] startup = some (s1, r)
      ∧ s1.error_flag = false ∧ s1.fail_flag = false
      ∧ s1.rx_buffer = (firstObservation (cs "AT+CWQAP\r\n")
          (cs "rst cause:2\r\nFAIL\r\nERROR\r\n\r\nOK\r\n") startup).rx_buffer :=
  (wait_loop_fixed_order (cs "AT+CWQAP\r\n") (cs "rst cause:2\r\nFAIL\r\nERROR\r\n\r\nOK\r\n")
    [cs "ready\r\n"] startup).2.2.1 (by decide)

/-! ## Canonicalisation by containment -/

/-- C22: `get_return` canonicalises by containment with a fixed precedence. For every
session state and every command text: if the text contains "AT+CWJAP=" anywhere, the
result is that for the bare "AT+CWJAP=", also when the text begins with "AT+CIPSTART=" or
"AT+CIPSEND="; otherwise, if it contains "AT+CIPSTART=" anywhere, the result is that for
the bare "AT+CIPSTART="; otherwise, if it contains "AT+CIPSEND=" anywhere, the result is
that for the bare "AT+CIPSEND=". -/
theorem get_return_by_containment (command : List Nat) (s : Session) :
    (cs "AT+CWJAP=" <:+: cstr command →
      get_return s command = get_return s (cs "AT+CWJAP="))
    ∧ (∀ suffix : List Nat, cs "AT+CWJAP=" <:+: cstr suffix →
        get_return s (cs "AT+CIPSTART=" ++ suffix) = get_return s (cs "AT+CWJAP=")
        ∧ get_return s (cs "AT+CIPSEND=" ++ suffix) = get_return s (cs "AT+CWJAP="))
    ∧ (¬ cs "AT+CWJAP=" <:+: cstr command → cs "AT+CIPSTART=" <:+: cstr command →
      get_return s command = get_return s (cs "AT+CIPSTART="))
    ∧ (¬ cs "AT+CWJAP=" <:+: cstr command → ¬ cs "AT+CIPSTART=" <:+: cstr command →
      cs "AT+CIPSEND=" <:+: cstr command →
      get_return s command = get_return s (cs "AT+CIPSEND=")) := by
  have m1 : cstr ESP8266_AT_CWJAP_SET = cs "AT+CWJAP=" := by decide
  have m2 : cstr ESP8266_AT_START = cs "AT+CIPSTART=" := by decide
  have m3 : cstr ESP8266_AT_SEND = cs "AT+CIPSEND=" := by decide
  have c1 : canonical (cs "AT+CWJAP=") = ESP8266_AT_CWJAP_SET := by decide
  have c2 : canonical (cs "AT+CIPSTART=") = ESP8266_AT_START := by decide
  have c3 : canonical (cs "AT+CIPSEND=") = ESP8266_AT_SEND := by decide
  have hj : ∀ text : List Nat, cs "AT+CWJAP=" <:+: cstr text →
      canonical text = ESP8266_AT_CWJAP_SET := by
    intro text h
    unfold canonical
    rw [if_pos ((strstr_isSome_iff _ _).mpr (by rw [m1]; exact h))]
  have hin : ∀ (head suffix : List Nat), (∀ x ∈ head, x ≠ 0) →
      cs "AT+CWJAP=" <:+: cstr suffix → cs "AT+CWJAP=" <:+: cstr (head ++ suffix) := by
    intro head suffix hz h
    rw [cstr_append _ _ hz]
    exact h.trans (List.suffix_append _ _).isInfix
  refine ⟨?_, ?_, ?_, ?_⟩
  · intro h
    exact get_return_congr s _ _ (by rw [hj command h, c1])
  · intro suffix h
    refine ⟨get_return_congr s _ _ ?_, get_return_congr s _ _ ?_⟩
    · rw [hj _ (hin _ suffix (by decide) h), c1]
    · rw [hj _ (hin _ suffix (by decide) h), c1]
  · intro h1 h2
    apply get_return_congr
    rw [c2]
    unfold canonical
    rw [if_neg (fun hh => h1 (by rw [← m1]; exact (strstr_isSome_iff _ _).mp hh)),
      if_pos ((strstr_isSome_iff _ _).mpr (by rw [m2]; exact h2))]
  · intro h1 h2 h3
    apply get_return_congr
    rw [c3]
    unfold canonical
    rw [if_neg (fun hh => h1 (by rw [← m1]; exact (strstr_isSome_iff _ _).mp hh)),
      if_neg (fun hh => h2 (by rw [← m2]; exact (strstr_isSome_iff _ _).mp hh)),
      if_pos ((strstr_isSome_iff _ _).mpr (by rw [m3]; exact h3))]

theorem get_return_by_containment_witness :
    get_return startup (cs "AT+CIPSEND=7,\"AT+CWJAP=\"\r\n") = get_return startup (cs "AT+CWJAP=") :=
  (get_return_by_containment (cs "AT+CIPSEND=7,\"AT+CWJAP=\"\r\n") startup).1
    ⟨cs "AT+CIPSEND=7,\"", cs "\"\r\n", by decide⟩

end ESP8266
